import Mathlib

/-!
Verification of the Telegram-ingestion core of the KK-BK repository.

The definitions below are a shallow embedding of the TypeScript sources:
`src/telegram-download.ts` (media metadata extraction, extension inference,
file retrieval) and `src/routes/webhook.ts` (webhook router, media-group
aggregation and flush, import-session state machine).  JavaScript numbers
are modeled as `Nat`/`Int`, nullable fields as `Option`, the relational
store as lists of rows carried in an explicit state record, and the two
network capabilities (file download, thumbnail download) as a pure oracle
record.  A `none` result of `extractMediaData` models the `TypeError`
thrown by `[].reduce` on an empty photo array; every caller catches it.
-/

namespace KKBK

/-- JavaScript `x || null` on an optional number: `0` and absent are falsy. -/
def jsOrNullNat : Option Nat → Option Nat
  | some n => if n = 0 then none else some n
  | none => none

/-- JavaScript `x || null` on an optional string: `""` and absent are falsy. -/
def jsOrNullStr : Option String → Option String
  | some s => if s = "" then none else some s
  | none => none

/-- One entry of a Telegram `photo` array (`PhotoSize`). -/
structure PhotoSize where
  file_id : String
  width : Nat
  height : Nat
  file_size : Option Nat
deriving Repr, DecidableEq

/-- The `video` field of a message; `thumbnail_file_id` is `thumbnail?.file_id`. -/
structure VideoInfo where
  file_id : String
  width : Nat
  height : Nat
  duration : Nat
  thumbnail_file_id : Option String
  mime_type : Option String
  file_size : Option Nat
deriving Repr, DecidableEq

/-- The `document` field of a message. -/
structure DocumentInfo where
  file_id : String
  file_name : Option String
  mime_type : Option String
  file_size : Option Nat
deriving Repr, DecidableEq

/-- The `audio` field of a message. -/
structure AudioInfo where
  file_id : String
  duration : Nat
  mime_type : Option String
  file_size : Option Nat
  file_name : Option String
deriving Repr, DecidableEq

/-- The `animation` field of a message; `thumbnail_file_id` is `thumbnail?.file_id`. -/
structure AnimationInfo where
  file_id : String
  width : Nat
  height : Nat
  duration : Nat
  thumbnail_file_id : Option String
  mime_type : Option String
  file_size : Option Nat
deriving Repr, DecidableEq

/-- The `voice` field of a message. -/
structure VoiceInfo where
  file_id : String
  duration : Nat
  mime_type : Option String
  file_size : Option Nat
deriving Repr, DecidableEq

/-- A chat descriptor (`message.chat`). -/
structure ChatInfo where
  id : Int
  type : String
deriving Repr, DecidableEq

/-- `message.forward_origin`; only its `date` is read by the core. -/
structure ForwardOrigin where
  type : String
  date : Nat
deriving Repr, DecidableEq

/-- An inbound Telegram message, with the fields the core reads. -/
structure TelegramMessage where
  message_id : Nat
  date : Nat
  chat : ChatInfo
  text : Option String
  caption : Option String
  photo : Option (List PhotoSize)
  video : Option VideoInfo
  document : Option DocumentInfo
  audio : Option AudioInfo
  animation : Option AnimationInfo
  voice : Option VoiceInfo
  forward_date : Option Nat
  forward_origin : Option ForwardOrigin
  media_group_id : Option String
deriving Repr, DecidableEq

/-- The record returned by `extractMediaData`. -/
structure MediaExtraction where
  media_type : Option String
  file_id : Option String
  file_size : Option Nat
  file_name : Option String
  mime_type : Option String
  width : Option Nat
  height : Option Nat
  duration : Option Nat
  thumbnail_file_id : Option String
  has_error : Bool
  error_message : Option String
deriving Repr, DecidableEq

/-- `const TELEGRAM_MAX_FILE_SIZE = 20 * 1024 * 1024;` -/
def TELEGRAM_MAX_FILE_SIZE : Nat := 20 * 1024 * 1024

/-- Error text for an over-limit video.  The source interpolates the size in
MB via floating-point `toFixed(2)`, which this model abstracts away; the
claims depend only on the message being present and descriptive. -/
def videoTooLargeMessage : String :=
  "Файл слишком большой. Telegram Bot API не позволяет скачивать файлы больше 20 MB. Загрузите видео вручную через сайт."

/-- Error text for an over-limit document (same abstraction as for video). -/
def documentTooLargeMessage : String :=
  "Файл слишком большой. Telegram Bot API не позволяет скачивать файлы больше 20 MB. Загрузите файл вручную через сайт."

/-- `current.file_size || 0` resp. `prev.file_size || 0`. -/
def photoSizeVal (p : PhotoSize) : Nat := p.file_size.getD 0

/-- `message.photo.reduce((prev, current) =>
      (current.file_size || 0) > (prev.file_size || 0) ? current : prev)`. -/
def largestPhoto (p : PhotoSize) (ps : List PhotoSize) : PhotoSize :=
  ps.foldl (fun prev current =>
    if photoSizeVal prev < photoSizeVal current then current else prev) p

/-- `fileSize && fileSize > TELEGRAM_MAX_FILE_SIZE` (on the `|| null`-ed size). -/
def exceedsLimit : Option Nat → Bool
  | some n => TELEGRAM_MAX_FILE_SIZE < n
  | none => false

/-- The all-null extraction produced for a message with no recognized media. -/
def emptyExtraction : MediaExtraction :=
  { media_type := none, file_id := none, file_size := none, file_name := none,
    mime_type := none, width := none, height := none, duration := none,
    thumbnail_file_id := none, has_error := false, error_message := none }

/-- `extractMediaData` from `src/telegram-download.ts`.  Returns `none` when
the body throws: `message.photo.reduce` with no seed raises a `TypeError`
on an empty (but present, hence truthy) photo array. -/
def extractMediaData (message : TelegramMessage) : Option MediaExtraction :=
  match message.photo with
  | some [] => none
  | some (p :: ps) =>
    some { media_type := some "image", file_id := some (largestPhoto p ps).file_id,
           file_size := jsOrNullNat (largestPhoto p ps).file_size, file_name := none,
           mime_type := none, width := some (largestPhoto p ps).width,
           height := some (largestPhoto p ps).height, duration := none,
           thumbnail_file_id := none, has_error := false, error_message := none }
  | none =>
  match message.video with
  | some v =>
    if exceedsLimit (jsOrNullNat v.file_size) then
      some { media_type := some "video", file_id := none,
             file_size := jsOrNullNat v.file_size,
             file_name := some "video", mime_type := jsOrNullStr v.mime_type,
             width := some v.width, height := some v.height,
             duration := some v.duration, thumbnail_file_id := none,
             has_error := true, error_message := some videoTooLargeMessage }
    else
      some { media_type := some "video", file_id := some v.file_id,
             file_size := jsOrNullNat v.file_size, file_name := some "video",
             mime_type := jsOrNullStr v.mime_type, width := some v.width,
             height := some v.height, duration := some v.duration,
             thumbnail_file_id := jsOrNullStr v.thumbnail_file_id,
             has_error := false, error_message := none }
  | none =>
  match message.document with
  | some d =>
    if exceedsLimit (jsOrNullNat d.file_size) then
      some { media_type := some "document", file_id := none,
             file_size := jsOrNullNat d.file_size,
             file_name := jsOrNullStr d.file_name,
             mime_type := jsOrNullStr d.mime_type, width := none, height := none,
             duration := none, thumbnail_file_id := none,
             has_error := true, error_message := some documentTooLargeMessage }
    else
      some { media_type := some "document", file_id := some d.file_id,
             file_size := jsOrNullNat d.file_size,
             file_name := jsOrNullStr d.file_name,
             mime_type := jsOrNullStr d.mime_type, width := none, height := none,
             duration := none, thumbnail_file_id := none,
             has_error := false, error_message := none }
  | none =>
  match message.audio with
  | some a =>
    some { media_type := some "audio", file_id := some a.file_id,
           file_size := jsOrNullNat a.file_size,
           file_name := jsOrNullStr a.file_name,
           mime_type := jsOrNullStr a.mime_type, width := none, height := none,
           duration := some a.duration, thumbnail_file_id := none,
           has_error := false, error_message := none }
  | none =>
  match message.animation with
  | some an =>
    some { media_type := some "animation", file_id := some an.file_id,
           file_size := jsOrNullNat an.file_size, file_name := none,
           mime_type := jsOrNullStr an.mime_type, width := some an.width,
           height := some an.height, duration := some an.duration,
           thumbnail_file_id := jsOrNullStr an.thumbnail_file_id,
           has_error := false, error_message := none }
  | none =>
  match message.voice with
  | some vc =>
    some { media_type := some "voice", file_id := some vc.file_id,
           file_size := jsOrNullNat vc.file_size,
           file_name := some "voice_message",
           mime_type := jsOrNullStr vc.mime_type, width := none, height := none,
           duration := some vc.duration, thumbnail_file_id := none,
           has_error := false, error_message := none }
  | none => some emptyExtraction

/-- `fileName.split('.').pop()`: the last dot-separated component. -/
def lastDotComponent (s : String) : String :=
  (s.splitOn ".").getLastD ""

/-- The fixed MIME-to-extension object literal inside `guessExtension`. -/
def mimeExtMap (m : String) : Option String :=
  if m = "video/mp4" then some "mp4"
  else if m = "video/webm" then some "webm"
  else if m = "video/quicktime" then some "mov"
  else if m = "image/jpeg" then some "jpg"
  else if m = "image/png" then some "png"
  else if m = "image/gif" then some "gif"
  else if m = "image/webp" then some "webp"
  else if m = "audio/mpeg" then some "mp3"
  else if m = "audio/ogg" then some "ogg"
  else if m = "audio/wav" then some "wav"
  else if m = "application/pdf" then some "pdf"
  else none

/-- The trailing chain of `if (mediaType === ...)` defaults in `guessExtension`. -/
def categoryFallback : Option String → String
  | some "image" => "jpg"
  | some "video" => "mp4"
  | some "audio" => "mp3"
  | some "voice" => "ogg"
  | some "animation" => "mp4"
  | some "document" => "bin"
  | _ => "bin"

/-- The part of `guessExtension` reached when no usable filename extension
was returned early: the MIME table, then the category defaults. -/
def guessExtensionFromMime (mimeType mediaType : Option String) : String :=
  match jsOrNullStr mimeType with
  | some mt =>
    match mimeExtMap mt with
    | some e => e
    | none => categoryFallback mediaType
  | none => categoryFallback mediaType

/-- `guessExtension(mimeType, fileName, mediaType)` from
`src/telegram-download.ts`: `if (fileName) { const ext =
fileName.split('.').pop(); if (ext && ext.length <= 5) return ext; }`,
then the MIME table, then the category defaults. -/
def guessExtension (mimeType fileName mediaType : Option String) : String :=
  match jsOrNullStr fileName with
  | some name =>
    if lastDotComponent name ≠ "" && (lastDotComponent name).length ≤ 5 then
      lastDotComponent name
    else guessExtensionFromMime mimeType mediaType
  | none => guessExtensionFromMime mimeType mediaType

/-! ## Relational state and configuration -/

/-- A `course_posts` row, restricted to the columns the core writes/reads.
`published_at` carries the raw epoch seconds: the source renders
`new Date(x * 1000).toISOString()`, an order-preserving injection that no
claim inspects beyond pass-through.  `source_type` is always `'telegram'`
and `title` always `''` on this path, so they are kept as written. -/
structure PostRow where
  id : Nat
  course_id : String
  source_type : String
  title : String
  text_content : String
  media_type : Option String
  media_group_id : Option String
  media_count : Nat
  storage_path : Option String
  thumbnail_storage_path : Option String
  file_name : Option String
  file_size : Option Nat
  mime_type : Option String
  telegram_message_id : Option Nat
  width : Option Nat
  height : Option Nat
  duration : Option Nat
  has_error : Bool
  error_message : Option String
  published_at : Nat
  order_index : Nat
deriving Repr, DecidableEq

/-- A `course_post_media` row (child of a group post); its own uuid primary
key is never read by the core and is omitted. -/
structure PostMediaRow where
  post_id : Nat
  media_type : Option String
  storage_path : Option String
  thumbnail_storage_path : Option String
  file_name : Option String
  file_size : Option Nat
  mime_type : Option String
  width : Option Nat
  height : Option Nat
  duration : Option Nat
  has_error : Bool
  error_message : Option String
  order_index : Nat
deriving Repr, DecidableEq

/-- A `telegram_media_group_buffer` row; `message_date` is epoch seconds as in
`PostRow.published_at`. -/
structure BufferRow where
  course_id : String
  media_group_id : String
  telegram_message_id : Nat
  media_data : MediaExtraction
  caption : Option String
  message_date : Nat
deriving Repr, DecidableEq

/-- A `telegram_import_sessions` row; `completed_at` is set from `NOW()`,
modeled by the `now` argument threaded through the handlers. -/
structure SessionRow where
  id : Nat
  telegram_user_id : Int
  platform_user_id : String
  course_id : String
  message_count : Nat
  is_active : Bool
  completed_at : Option Nat
deriving Repr, DecidableEq

/-- The mutable store: the four tables the core writes, plus a fresh-key
counter standing in for generated uuids. -/
structure DbState where
  posts : List PostRow
  postMedia : List PostMediaRow
  buffer : List BufferRow
  sessions : List SessionRow
  nextId : Nat
deriving Repr, DecidableEq

/-- A `telegram_bots` row (configuration, read-only to the core except for
`last_sync_at`, a timestamp no claim observes and which is not modeled). -/
structure BotRow where
  id : String
  bot_token : String
  channel_id : Option String
  course_id : Option String
  is_active : Bool
deriving Repr, DecidableEq

/-- A `telegram_seller_chats` row.  A row whose collection binding is NULL
would make the `course_posts` insert fail its NOT NULL constraint; the
claims range over bound rows, so the binding is kept total here. -/
structure LinkedChatRow where
  id : String
  telegram_chat_id : Int
  course_id : String
  is_active : Bool
deriving Repr, DecidableEq

/-- A `users` row (only the columns the import flow reads). -/
structure UserRow where
  id : String
  telegram_id : Int
deriving Repr, DecidableEq

/-- Read-only configuration tables. -/
structure Env where
  bots : List BotRow
  linkedChats : List LinkedChatRow
  users : List UserRow

/-- Result of `downloadTelegramFileToS3` on success. -/
structure DownloadResult where
  storage_path : String
  mime_type : String
  file_size : Nat
deriving Repr, DecidableEq

/-- The two network capabilities, abstracted as pure oracles keyed by file
id: `download` models `downloadTelegramFileToS3` (which resolves the
download location, fetches, uploads to storage and returns the new key, or
`null` on any failure) and `thumbnail` models `downloadTelegramThumbnailToS3`. -/
structure Net where
  download : String → Option DownloadResult
  thumbnail : String → Option String

/-- Outcome of the shared local download block (webhook.ts lines 77–96,
168–187, 419–437): storage and thumbnail paths plus the possibly updated
error flag and message. -/
structure MediaFetchOutcome where
  storage_path : Option String
  thumbnail_path : Option String
  has_error : Bool
  error_message : Option String
deriving Repr, DecidableEq

/-- `'Не удалось скачать файл из Telegram'` (channel / group-flush paths). -/
def downloadFailMessage : String := "Не удалось скачать файл из Telegram"

/-- The longer variant used on the forwarded-message path. -/
def downloadFailMessageForwarded : String :=
  "Не удалось скачать файл из Telegram. Возможно файл превышает 20 MB или недоступен."

/-- The `if (!hasError && md.file_id) { ... }` download block shared by the
three ingestion sites; `failMsg` is the site-specific failure text. -/
def fetchMedia (net : Net) (md : MediaExtraction) (failMsg : String) :
    MediaFetchOutcome :=
  match md.has_error, md.file_id with
  | false, some fid =>
    let thumbnailPath := (jsOrNullStr md.thumbnail_file_id).bind net.thumbnail
    match net.download fid with
    | some d =>
      { storage_path := some d.storage_path, thumbnail_path := thumbnailPath,
        has_error := false, error_message := md.error_message }
    | none =>
      { storage_path := none, thumbnail_path := thumbnailPath,
        has_error := true, error_message := some failMsg }
  | _, _ =>
    { storage_path := none, thumbnail_path := none,
      has_error := md.has_error, error_message := md.error_message }

/-! ## Media group aggregation and flush -/

/-- The `(media_group_id, course_id)` key predicate used by the buffer
queries. -/
def bufferKey (mediaGroupId courseId : String) (b : BufferRow) : Bool :=
  b.media_group_id == mediaGroupId && b.course_id == courseId

/-- `ORDER BY telegram_message_id` on the buffered rows. -/
def sortByMessageId (l : List BufferRow) : List BufferRow :=
  l.insertionSort (fun a b => a.telegram_message_id ≤ b.telegram_message_id)

/-- `entries.find((e) => e.caption)?.caption || ''`: the first truthy caption
in message-id order, else the empty string. -/
def groupCaption (entries : List BufferRow) : String :=
  match entries.find? (fun e => (jsOrNullStr e.caption).isSome) with
  | some e => e.caption.getD ""
  | none => ""

/-- One `course_post_media` insert of the flush loop. -/
def mediaRowFor (net : Net) (postId : Nat) (md : MediaExtraction)
    (orderIndex : Nat) : PostMediaRow :=
  let f := fetchMedia net md downloadFailMessage
  { post_id := postId, media_type := md.media_type,
    storage_path := f.storage_path, thumbnail_storage_path := f.thumbnail_path,
    file_name := md.file_name, file_size := md.file_size,
    mime_type := md.mime_type, width := md.width, height := md.height,
    duration := md.duration, has_error := f.has_error,
    error_message := f.error_message, order_index := orderIndex }

/-- The parent `course_posts` insert of the flush (no `telegram_message_id`
column appears in that INSERT, so the row's source message id is NULL). -/
def parentPostFor (mediaGroupId courseId : String) (postId : Nat)
    (entries : List BufferRow) (caption : String) (messageDate : Nat) : PostRow :=
  { id := postId, course_id := courseId, source_type := "telegram", title := "",
    text_content := caption, media_type := some "media_group",
    media_group_id := some mediaGroupId, media_count := entries.length,
    storage_path := none, thumbnail_storage_path := none, file_name := none,
    file_size := none, mime_type := none, telegram_message_id := none,
    width := none, height := none, duration := none, has_error := false,
    error_message := none, published_at := messageDate, order_index := 0 }

/-- `processMediaGroupBuffer`: re-read the buffered entries for the key in
message-id order; no-op when none remain; otherwise insert one parent post,
one media row per entry in order, and delete the buffered rows.  The store
is modeled as reliable, so the `RETURNING id` of the parent insert always
succeeds. -/
def processMediaGroupBuffer (net : Net) (mediaGroupId courseId : String)
    (s : DbState) : DbState :=
  let entries := sortByMessageId (s.buffer.filter (bufferKey mediaGroupId courseId))
  match entries with
  | [] => s
  | e0 :: _ =>
    let caption := groupCaption entries
    let messageDate := e0.message_date
    let postId := s.nextId
    let children := entries.enum.map
      (fun p => mediaRowFor net postId p.2.media_data p.1)
    { s with
      posts := s.posts ++ [parentPostFor mediaGroupId courseId postId entries caption messageDate]
      postMedia := s.postMedia ++ children
      buffer := s.buffer.filter (fun b => !(bufferKey mediaGroupId courseId b))
      nextId := s.nextId + 1 }

/-- Body of the one-shot 5-second timer registered by
`scheduleMediaGroupProcessing`: count the buffered rows for the key and
flush when any remain.  The timer's firing is modeled as an explicit
transition; real-time delay is outside the state model. -/
def mediaGroupTimerFire (net : Net) (mediaGroupId courseId : String)
    (s : DbState) : DbState :=
  if 0 < s.buffer.countP (bufferKey mediaGroupId courseId) then
    processMediaGroupBuffer net mediaGroupId courseId s
  else s

/-! ## Ingestion of a single message -/

/-- The buffer row inserted by `saveCoursePost` for a group member. -/
def savedBufferRow (courseId : String) (gid : String)
    (message : TelegramMessage) (md : MediaExtraction) : BufferRow :=
  { course_id := courseId, media_group_id := gid,
    telegram_message_id := message.message_id, media_data := md,
    caption := jsOrNullStr message.caption, message_date := message.date }

/-- The `course_posts` row inserted by `saveCoursePost` for a non-group
message. -/
def savedPostRow (net : Net) (courseId : String) (message : TelegramMessage)
    (md : MediaExtraction) (postId : Nat) : PostRow :=
  let textContent :=
    ((jsOrNullStr message.text).orElse (fun _ => jsOrNullStr message.caption)).getD ""
  let f := fetchMedia net md downloadFailMessage
  { id := postId, course_id := courseId, source_type := "telegram", title := "",
    text_content := textContent, media_type := md.media_type,
    media_group_id := none, media_count := 1, storage_path := f.storage_path,
    thumbnail_storage_path := f.thumbnail_path, file_name := md.file_name,
    file_size := md.file_size, mime_type := md.mime_type,
    telegram_message_id := some message.message_id, width := md.width,
    height := md.height, duration := md.duration, has_error := f.has_error,
    error_message := f.error_message, published_at := message.date,
    order_index := 0 }

/-- `saveCoursePost`: buffer a media-group member (the flush timer it also
registers is modeled as a separate `mediaGroupTimerFire` transition), or
insert a single post directly.  `none` models the thrown `TypeError` of
`extractMediaData` on an empty photo array, which happens before any write. -/
def saveCoursePost (net : Net) (courseId : String) (message : TelegramMessage)
    (s : DbState) : Option DbState :=
  match message.media_group_id with
  | some gid =>
    match extractMediaData message with
    | none => none
    | some md =>
      some { s with buffer := s.buffer ++ [savedBufferRow courseId gid message md] }
  | none =>
    match extractMediaData message with
    | none => none
    | some md =>
      some { s with
        posts := s.posts ++ [savedPostRow net courseId message md s.nextId]
        nextId := s.nextId + 1 }

/-! ## Webhook router -/

/-- `getBotToken`: `bot?.bot_token || null`. -/
def getBotToken (env : Env) (botId : String) : Option String :=
  match env.bots.find? (fun b => b.id == botId) with
  | some b => jsOrNullStr (some b.bot_token)
  | none => none

/-- The duplicate-suppression existence check
`SELECT id FROM course_posts WHERE course_id = $1 AND telegram_message_id = $2`. -/
def postExists (s : DbState) (courseId : String) (messageId : Nat) : Bool :=
  s.posts.any (fun p => p.course_id == courseId &&
    p.telegram_message_id == some messageId)

/-- `SELECT id, course_id FROM telegram_bots WHERE channel_id = $1 AND
is_active = true` (as `queryOne`: the first matching row). -/
def findChannelBot (env : Env) (chatId : Int) : Option BotRow :=
  env.bots.find? (fun b => b.channel_id == some (toString chatId) && b.is_active)

/-- `SELECT id, course_id FROM telegram_seller_chats WHERE telegram_chat_id
= $1 AND is_active = true`. -/
def activeLinkedChats (env : Env) (chatId : Int) : List LinkedChatRow :=
  env.linkedChats.filter (fun c => c.telegram_chat_id == chatId && c.is_active)

/-- The linked-chat fan-out loop: per chat, skip when a post with the same
`(course_id, telegram_message_id)` already exists, else ingest.  A thrown
extraction aborts the remaining iterations (caught by the handler's outer
`try`); the per-chat `last_sync_at` touch is a config-table timestamp not
modeled. -/
def fanOutChannel (net : Net) (message : TelegramMessage) :
    List LinkedChatRow → DbState → DbState
  | [], s => s
  | c :: rest, s =>
    if postExists s c.course_id message.message_id then
      fanOutChannel net message rest s
    else
      match saveCoursePost net c.course_id message s with
      | some s2 => fanOutChannel net message rest s2
      | none => s

/-- The channel-post branch of the webhook handler: primary binding first
(exclusive when the matched bot has a bound collection), else fan-out. -/
def handleChannelPost (env : Env) (net : Net) (message : TelegramMessage)
    (s : DbState) : DbState :=
  match findChannelBot env message.chat.id with
  | some bot =>
    match bot.course_id with
    | some cid =>
      if postExists s cid message.message_id then s
      else
        match saveCoursePost net cid message s with
        | some s2 => s2
        | none => s
    | none => fanOutChannel net message (activeLinkedChats env message.chat.id) s
  | none => fanOutChannel net message (activeLinkedChats env message.chat.id) s

/-! ## Import-session state machine -/

/-- `SELECT ... FROM telegram_import_sessions WHERE telegram_user_id = $1
AND is_active = true` (first row). -/
def findActiveSession (s : DbState) (userId : Int) : Option SessionRow :=
  s.sessions.find? (fun r => r.telegram_user_id == userId && r.is_active)

/-- `UPDATE telegram_import_sessions SET is_active = false, completed_at =
NOW() WHERE telegram_user_id = $1 AND is_active = true`. -/
def deactivateAllFor (userId : Int) (now : Nat) (l : List SessionRow) :
    List SessionRow :=
  l.map (fun r =>
    if r.telegram_user_id == userId && r.is_active then
      { r with is_active := false, completed_at := some now }
    else r)

/-- `UPDATE telegram_import_sessions SET is_active = false, completed_at =
NOW() WHERE id = $1`. -/
def deactivateById (sid : Nat) (now : Nat) (l : List SessionRow) :
    List SessionRow :=
  l.map (fun r =>
    if r.id == sid then { r with is_active := false, completed_at := some now }
    else r)

/-- `UPDATE telegram_import_sessions SET message_count = $1 WHERE id = $2`. -/
def setCountById (sid : Nat) (newCount : Nat) (l : List SessionRow) :
    List SessionRow :=
  l.map (fun r => if r.id == sid then { r with message_count := newCount } else r)

/-- The row inserted by a successful `/import`: a fresh Active session with
counter 0 bound to the bot's collection. -/
def newSessionRow (uid : Int) (platformId : String) (cid : String)
    (sid : Nat) : SessionRow :=
  { id := sid, telegram_user_id := uid, platform_user_id := platformId,
    course_id := cid, message_count := 0, is_active := true,
    completed_at := none }

/-- The reply-keyboard-label normalization performed before dispatch. -/
def normalizeCommand (raw : String) : String :=
  let t := raw.trim
  if t = "▶️ Начать импорт" then "/import"
  else if t = "⏹ Завершить импорт" then "/done"
  else if t = "📊 Статус" then "/status"
  else if t = "❓ Помощь" then "/help"
  else t

/-- The private-chat command block.  `some s2` means the block returned
(replies are outbound messages with no database effect and are not
modeled); `none` means no command matched, so control falls through to the
forwarded-message check. -/
def dispatchCommand (env : Env) (botId : String) (userId : Int) (now : Nat)
    (text : String) (s : DbState) : Option DbState :=
  if text == "/start" || text == "/help" then some s
  else if text == "/status" then some s
  else if text == "/import" || text.startsWith "/import" then
    match env.bots.find? (fun b => b.id == botId && b.is_active) with
    | some bot =>
      match bot.course_id with
      | some cid =>
        match env.users.find? (fun u => u.telegram_id == userId) with
        | some dbUser =>
          some { s with
            sessions := deactivateAllFor userId now s.sessions ++
              [newSessionRow userId dbUser.id cid s.nextId]
            nextId := s.nextId + 1 }
        | none => some s
      | none => some s
    | none => some s
  else if text == "/done" || text == "/stop" then
    match findActiveSession s userId with
    | some sess => some { s with sessions := deactivateById sess.id now s.sessions }
    | none => some s
  else none

/-- `message.forward_date || (message.forward_origin)?.date || message.date`. -/
def forwardedTimestamp (message : TelegramMessage) : Nat :=
  match jsOrNullNat message.forward_date with
  | some d => d
  | none =>
    match message.forward_origin with
    | some o =>
      match jsOrNullNat (some o.date) with
      | some d => d
      | none => message.date
    | none => message.date

/-- The buffer row inserted by the forwarded-message branch for a group
member (uses the forward timestamp, not the delivery timestamp). -/
def forwardedBufferRow (courseId : String) (gid : String)
    (message : TelegramMessage) (md : MediaExtraction) : BufferRow :=
  { course_id := courseId, media_group_id := gid,
    telegram_message_id := message.message_id, media_data := md,
    caption := jsOrNullStr message.caption,
    message_date := forwardedTimestamp message }

/-- The `course_posts` row inserted by the forwarded-message branch for a
non-group message. -/
def forwardedPostRow (net : Net) (courseId : String) (message : TelegramMessage)
    (md : MediaExtraction) (postId : Nat) : PostRow :=
  let textContent :=
    ((jsOrNullStr message.text).orElse (fun _ => jsOrNullStr message.caption)).getD ""
  let f := fetchMedia net md downloadFailMessageForwarded
  { id := postId, course_id := courseId, source_type := "telegram", title := "",
    text_content := textContent, media_type := md.media_type,
    media_group_id := none, media_count := 1, storage_path := f.storage_path,
    thumbnail_storage_path := f.thumbnail_path, file_name := md.file_name,
    file_size := md.file_size, mime_type := md.mime_type,
    telegram_message_id := some message.message_id, width := md.width,
    height := md.height, duration := md.duration, has_error := f.has_error,
    error_message := f.error_message,
    published_at := forwardedTimestamp message, order_index := 0 }

/-- The forwarded-message ingestion branch (webhook.ts lines 390–461): with
an active session, buffer a group member or insert a post directly — with
no existence check — then set the counter to the read value plus one. -/
def handleForwarded (net : Net) (userId : Int) (message : TelegramMessage)
    (s : DbState) : DbState :=
  match findActiveSession s userId with
  | none => s
  | some sess =>
    let courseId := sess.course_id
    let afterIngest : Option DbState :=
      match message.media_group_id with
      | some gid =>
        match extractMediaData message with
        | none => none
        | some md =>
          some { s with buffer := s.buffer ++ [forwardedBufferRow courseId gid message md] }
      | none =>
        match extractMediaData message with
        | none => none
        | some md =>
          some { s with
            posts := s.posts ++ [forwardedPostRow net courseId message md s.nextId]
            nextId := s.nextId + 1 }
    match afterIngest with
    | none => s
    | some s1 =>
      { s1 with sessions := setCountById sess.id (sess.message_count + 1) s1.sessions }

/-- The webhook envelope. -/
structure TelegramUpdate where
  update_id : Nat
  message : Option TelegramMessage
  channel_post : Option TelegramMessage
deriving Repr, DecidableEq

/-- The forwarded-message check reached when no command returned:
`isForwarded = !!(message.forward_date || message.forward_origin)` gates the
session-targeted ingestion of §4.1 step 3. -/
def forwardedStep (net : Net) (message : TelegramMessage) (s : DbState) : DbState :=
  if (jsOrNullNat message.forward_date).isSome || message.forward_origin.isSome then
    handleForwarded net message.chat.id message s
  else s

/-- The non-channel half of the webhook handler: in a private chat a truthy
text first runs through the command block (whose unmatched case falls
through), then the forwarded-message check runs. -/
def handlePrivateMessage (env : Env) (net : Net) (now : Nat) (botId : String)
    (message : TelegramMessage) (s : DbState) : DbState :=
  if message.chat.type == "private" then
    match jsOrNullStr message.text with
    | some rawText =>
      match dispatchCommand env botId message.chat.id now (normalizeCommand rawText) s with
      | some s2 => s2
      | none => forwardedStep net message s
    | none => forwardedStep net message s
  else s

/-- The detached processing of one webhook delivery (`router.post('/:botId')`
after the immediate acknowledgement): resolve the bot token, pick
`channel_post || message`, then route to the channel branch or the private
message handling (command block, then forwarded check). -/
def handleUpdate (env : Env) (net : Net) (now : Nat) (botId : String)
    (u : TelegramUpdate) (s : DbState) : DbState :=
  match getBotToken env botId with
  | none => s
  | some _ =>
    match u.channel_post with
    | some message => handleChannelPost env net message s
    | none =>
      match u.message with
      | none => s
      | some message => handlePrivateMessage env net now botId message s

/-! ## Spec-side definitions (used to state refinement claims) -/

/-- Spec wording (§4.2): the category precedence image, video, document,
audio, animation, voice — the first populated field decides. -/
def firstMediaCategory (m : TelegramMessage) : Option String :=
  if m.photo.isSome then some "image"
  else if m.video.isSome then some "video"
  else if m.document.isSome then some "document"
  else if m.audio.isSome then some "audio"
  else if m.animation.isSome then some "animation"
  else if m.voice.isSome then some "voice"
  else none

/-- The message with every media field after the first populated one (in
precedence order) cleared; used to state that only the first populated
field is consulted. -/
def keepFirstMediaOnly (m : TelegramMessage) : TelegramMessage :=
  if m.photo.isSome then
    { m with video := none, document := none, audio := none, animation := none, voice := none }
  else if m.video.isSome then
    { m with document := none, audio := none, animation := none, voice := none }
  else if m.document.isSome then
    { m with audio := none, animation := none, voice := none }
  else if m.audio.isSome then
    { m with animation := none, voice := none }
  else if m.animation.isSome then
    { m with voice := none }
  else m

/-- Running maximum of `file_size || 0` over photo variants, seeded at `a`. -/
def maxSizeFrom (a : Nat) (l : List PhotoSize) : Nat :=
  l.foldl (fun acc q => max acc (photoSizeVal q)) a

/-- The largest `file_size || 0` in a photo array. -/
def listMaxSize (l : List PhotoSize) : Nat := maxSizeFrom 0 l

/-- Generic first-match association lookup, spec side of the MIME table. -/
def lookupTable : List (String × String) → String → Option String
  | [], _ => none
  | (k, v) :: rest, m => if m = k then some v else lookupTable rest m

/-- The fixed MIME lookup table, as data. -/
def specMimeTable : List (String × String) :=
  [("video/mp4", "mp4"), ("video/webm", "webm"), ("video/quicktime", "mov"),
   ("image/jpeg", "jpg"), ("image/png", "png"), ("image/gif", "gif"),
   ("image/webp", "webp"), ("audio/mpeg", "mp3"), ("audio/ogg", "ogg"),
   ("audio/wav", "wav"), ("application/pdf", "pdf")]

/-- Spec wording (§4.4): the original filename's extension, when present and
within the length cap. -/
def specFileNameExtension (fileName : Option String) : Option String :=
  match jsOrNullStr fileName with
  | some name =>
    if lastDotComponent name ≠ "" && (lastDotComponent name).length ≤ 5 then
      some (lastDotComponent name)
    else none
  | none => none

/-- Spec wording: category defaults image→jpg, audio→mp3, voice→ogg,
video→mp4, animation→mp4, document→bin. -/
def specCategoryDefault (mediaType : Option String) : String :=
  if mediaType = some "image" then "jpg"
  else if mediaType = some "audio" then "mp3"
  else if mediaType = some "voice" then "ogg"
  else if mediaType = some "video" then "mp4"
  else if mediaType = some "animation" then "mp4"
  else if mediaType = some "document" then "bin"
  else "bin"

/-- Spec wording (§4.4): filename extension, else MIME table, else category
default. -/
def specExtension (mimeType fileName mediaType : Option String) : String :=
  match specFileNameExtension fileName with
  | some e => e
  | none =>
    match (jsOrNullStr mimeType).bind (lookupTable specMimeTable) with
    | some e => e
    | none => specCategoryDefault mediaType

/-- Active-session count for one user over a session table. -/
def activeCountL (l : List SessionRow) (u : Int) : Nat :=
  (l.filter (fun r => r.telegram_user_id == u && r.is_active)).length

/-- Active-session count for one user. -/
def activeCountFor (s : DbState) (u : Int) : Nat := activeCountL s.sessions u

/-- Spec invariant (§3): at most one active import session per external user. -/
def SessionsInvariant (s : DbState) : Prop := ∀ u : Int, activeCountFor s u ≤ 1

/-- Whether the session row with the given id is active in the state. -/
def sessionActiveById (s : DbState) (sid : Nat) : Bool :=
  s.sessions.any (fun r => r.id == sid && r.is_active)

/-- How many of `u`'s sessions that were active in `s` are no longer active
in `s2`: the sessions a transition terminated. -/
def terminatedFor (s s2 : DbState) (u : Int) : Nat :=
  (s.sessions.filter (fun r => r.telegram_user_id == u && r.is_active &&
    !(sessionActiveById s2 r.id))).length

/-! ## Concrete inputs for witnesses and counterexamples -/

/-- Oracle for runs where no network fetch succeeds. -/
def noNet : Net := { download := fun _ => none, thumbnail := fun _ => none }

/-- The empty store. -/
def emptyState : DbState :=
  { posts := [], postMedia := [], buffer := [], sessions := [], nextId := 0 }

def onePhoto : PhotoSize := { file_id := "f1", width := 1, height := 1, file_size := some 10 }

/-- A channel post carrying one photo of a media group. -/
def c1Msg : TelegramMessage :=
  { message_id := 42, date := 10, chat := { id := 5, type := "channel" },
    text := none, caption := none, photo := some [onePhoto], video := none,
    document := none, audio := none, animation := none, voice := none,
    forward_date := none, forward_origin := none, media_group_id := some "mg1" }

/-- One active bot with primary channel 5 bound to collection "C". -/
def c1Env : Env :=
  { bots := [{ id := "b1", bot_token := "tok", channel_id := some "5",
               course_id := some "C", is_active := true }],
    linkedChats := [], users := [] }

def c1Update : TelegramUpdate := { update_id := 1, channel_post := some c1Msg, message := none }

/-- First delivery of the group member followed by its flush. -/
def c1Run1 : DbState :=
  mediaGroupTimerFire noNet "mg1" "C" (handleUpdate c1Env noNet 0 "b1" c1Update emptyState)

/-- Redelivery of the identical message after the flush, and a second flush. -/
def c1Run2 : DbState :=
  mediaGroupTimerFire noNet "mg1" "C" (handleUpdate c1Env noNet 0 "b1" c1Update c1Run1)

/-- The same channel post without a media group id (direct-save path). -/
def ndMsg : TelegramMessage := { c1Msg with media_group_id := none }

def ndUpdate : TelegramUpdate := { update_id := 2, channel_post := some ndMsg, message := none }

/-- Buffered member with the smaller message id but the later timestamp. -/
def c3E1 : BufferRow :=
  { course_id := "C", media_group_id := "mg1", telegram_message_id := 1,
    media_data := emptyExtraction, caption := none, message_date := 100 }

/-- Buffered member with the larger message id but the earlier timestamp. -/
def c3E2 : BufferRow :=
  { course_id := "C", media_group_id := "mg1", telegram_message_id := 2,
    media_data := emptyExtraction, caption := some "cap", message_date := 50 }

def c3State : DbState :=
  { posts := [], postMedia := [], buffer := [c3E2, c3E1], sessions := [], nextId := 7 }

/-- A single buffered entry under key ("g2", "D"). -/
def w2Entry : BufferRow :=
  { course_id := "D", media_group_id := "g2", telegram_message_id := 9,
    media_data := emptyExtraction, caption := none, message_date := 3 }

def w2State : DbState :=
  { posts := [], postMedia := [], buffer := [w2Entry], sessions := [], nextId := 0 }

/-- A video one byte above the 20 MiB limit. -/
def bigVideo : VideoInfo :=
  { file_id := "v1", width := 10, height := 10, duration := 4,
    thumbnail_file_id := some "t1", mime_type := some "video/mp4",
    file_size := some (20 * 1024 * 1024 + 1) }

def bigVideoMsg : TelegramMessage :=
  { message_id := 7, date := 1, chat := { id := 1, type := "channel" },
    text := none, caption := none, photo := none, video := some bigVideo,
    document := none, audio := none, animation := none, voice := none,
    forward_date := none, forward_origin := none, media_group_id := none }

/-- A message populating several media fields at once. -/
def multiMsg : TelegramMessage :=
  { bigVideoMsg with
    document := some { file_id := "d1", file_name := some "a.pdf",
                       mime_type := some "application/pdf", file_size := some 5 } }

/-- A message with no recognized media. -/
def noMediaMsg : TelegramMessage :=
  { message_id := 8, date := 1, chat := { id := 1, type := "channel" },
    text := some "hello", caption := none, photo := none, video := none,
    document := none, audio := none, animation := none, voice := none,
    forward_date := none, forward_origin := none, media_group_id := none }

def photoSmall : PhotoSize := { file_id := "p1", width := 1, height := 1, file_size := some 4 }

def photoBig : PhotoSize := { file_id := "p2", width := 2, height := 2, file_size := some 9 }

/-- A tie partner for `photoBig` listed after it. -/
def photoBig2 : PhotoSize := { file_id := "p3", width := 3, height := 3, file_size := some 9 }

def photosMsg : TelegramMessage :=
  { noMediaMsg with text := none, photo := some [photoSmall, photoBig, photoBig2] }

/-- A private forwarded photo message (no text, no media group). -/
def fwdMsg : TelegramMessage :=
  { message_id := 42, date := 30, chat := { id := 77, type := "private" },
    text := none, caption := some "note", photo := some [onePhoto], video := none,
    document := none, audio := none, animation := none, voice := none,
    forward_date := some 20, forward_origin := none, media_group_id := none }

def fwdUpdate : TelegramUpdate := { update_id := 3, channel_post := none, message := some fwdMsg }

/-- An active import session for user 77 targeting collection "X". -/
def sess77 : SessionRow :=
  { id := 0, telegram_user_id := 77, platform_user_id := "u77", course_id := "X",
    message_count := 0, is_active := true, completed_at := none }

/-- A post already recorded under ("X", 42): a duplicate of `fwdMsg`. -/
def dupPost : PostRow :=
  { id := 100, course_id := "X", source_type := "telegram", title := "",
    text_content := "", media_type := some "image", media_group_id := none,
    media_count := 1, storage_path := none, thumbnail_storage_path := none,
    file_name := none, file_size := none, mime_type := none,
    telegram_message_id := some 42, width := none, height := none,
    duration := none, has_error := false, error_message := none,
    published_at := 20, order_index := 0 }

/-- Concrete extraction result for `fwdMsg` (its single photo). -/
def fwdExtraction : MediaExtraction :=
  { media_type := some "image", file_id := some "f1", file_size := some 10,
    file_name := none, mime_type := none, width := some 1, height := some 1,
    duration := none, thumbnail_file_id := none, has_error := false,
    error_message := none }

def c10State : DbState :=
  { posts := [dupPost], postMedia := [], buffer := [], sessions := [sess77], nextId := 1 }

/-- An `/import` text message from user 77. -/
def importMsg : TelegramMessage :=
  { message_id := 50, date := 40, chat := { id := 77, type := "private" },
    text := some "/import", caption := none, photo := none, video := none,
    document := none, audio := none, animation := none, voice := none,
    forward_date := none, forward_origin := none, media_group_id := none }

def importUpdate : TelegramUpdate :=
  { update_id := 4, channel_post := none, message := some importMsg }

/-- Configuration for the import-session witnesses: the bot serving botId
"b1" is bound to "X" and user 77 is mapped. -/
def c7Env : Env :=
  { bots := [{ id := "b1", bot_token := "tok", channel_id := none,
               course_id := some "X", is_active := true }],
    linkedChats := [], users := [{ id := "u77", telegram_id := 77 }] }

/-- Concrete extraction result for `photosMsg` (first maximal variant). -/
def photosExtraction : MediaExtraction :=
  { media_type := some "image", file_id := some "p2", file_size := some 9,
    file_name := none, mime_type := none, width := some 2, height := some 2,
    duration := none, thumbnail_file_id := none, has_error := false,
    error_message := none }

/-! ## Helper lemmas -/

theorem isSome_false_eq_none {α : Type} {o : Option α} (h : o.isSome = false) :
    o = none := by cases o <;> simp_all

theorem exceedsLimit_jsOrNull (n : Nat) :
    exceedsLimit (jsOrNullNat (some n)) = decide (TELEGRAM_MAX_FILE_SIZE < n) := by
  by_cases h : n = 0 <;> simp [jsOrNullNat, exceedsLimit, h]

theorem extract_first_category_aux (m : TelegramMessage) (r : MediaExtraction)
    (h : extractMediaData m = some r) : r.media_type = firstMediaCategory m := by
  unfold extractMediaData at h
  repeat' split at h
  all_goals first
    | (injection h with h; subst h; simp [firstMediaCategory, emptyExtraction, *])
    | simp_all

theorem extract_no_media_aux (m : TelegramMessage)
    (h : firstMediaCategory m = none) : extractMediaData m = some emptyExtraction := by
  unfold firstMediaCategory at h
  split_ifs at h with h1 h2 h3 h4 h5 h6
  rw [Bool.not_eq_true] at h1 h2 h3 h4 h5 h6
  simp [extractMediaData, isSome_false_eq_none h1, isSome_false_eq_none h2,
    isSome_false_eq_none h3, isSome_false_eq_none h4, isSome_false_eq_none h5,
    isSome_false_eq_none h6]

theorem extract_uses_first_only_aux (m : TelegramMessage) :
    extractMediaData m = extractMediaData (keepFirstMediaOnly m) := by
  unfold keepFirstMediaOnly
  rcases hp : m.photo with _ | (_ | ⟨p, ps⟩)
  · rcases hv : m.video with _ | v
    · rcases hd : m.document with _ | d
      · rcases ha : m.audio with _ | a
        · rcases han : m.animation with _ | an
          · simp [hp, hv, hd, ha, han]
          · simp [extractMediaData, hp, hv, hd, ha, han]
        · simp [extractMediaData, hp, hv, hd, ha]
      · simp [extractMediaData, hp, hv, hd]
    · simp [extractMediaData, hp, hv]
  · simp [extractMediaData, hp]
  · simp [extractMediaData, hp]

theorem video_gate_aux (m : TelegramMessage) (v : VideoInfo) (n : Nat)
    (hp : m.photo = none) (hv : m.video = some v) (hn : v.file_size = some n) :
    ∃ r, extractMediaData m = some r ∧
      (r.has_error = true ↔ TELEGRAM_MAX_FILE_SIZE < n) ∧
      (TELEGRAM_MAX_FILE_SIZE < n →
        r.file_id = none ∧ r.thumbnail_file_id = none ∧
        r.error_message = some videoTooLargeMessage) ∧
      (¬ TELEGRAM_MAX_FILE_SIZE < n →
        r.file_id = some v.file_id ∧ r.has_error = false ∧ r.error_message = none) := by
  by_cases hlim : TELEGRAM_MAX_FILE_SIZE < n
  · have hx : exceedsLimit (jsOrNullNat v.file_size) = true := by
      rw [hn, exceedsLimit_jsOrNull]; simpa using hlim
    have hE : extractMediaData m = some
        { media_type := some "video", file_id := none,
          file_size := jsOrNullNat v.file_size, file_name := some "video",
          mime_type := jsOrNullStr v.mime_type, width := some v.width,
          height := some v.height, duration := some v.duration,
          thumbnail_file_id := none, has_error := true,
          error_message := some videoTooLargeMessage } := by
      simp [extractMediaData, hp, hv, hx]
    exact ⟨_, hE, by simpa using hlim, fun _ => ⟨rfl, rfl, rfl⟩,
      fun hc => absurd hlim hc⟩
  · have hx : exceedsLimit (jsOrNullNat v.file_size) = false := by
      rw [hn, exceedsLimit_jsOrNull]; simpa using hlim
    have hE : extractMediaData m = some
        { media_type := some "video", file_id := some v.file_id,
          file_size := jsOrNullNat v.file_size, file_name := some "video",
          mime_type := jsOrNullStr v.mime_type, width := some v.width,
          height := some v.height, duration := some v.duration,
          thumbnail_file_id := jsOrNullStr v.thumbnail_file_id,
          has_error := false, error_message := none } := by
      simp [extractMediaData, hp, hv, hx]
    exact ⟨_, hE, by simpa using hlim, fun hc => absurd hc hlim,
      fun _ => ⟨rfl, rfl, rfl⟩⟩

theorem document_gate_aux (m : TelegramMessage) (d : DocumentInfo) (n : Nat)
    (hp : m.photo = none) (hv : m.video = none) (hd : m.document = some d)
    (hn : d.file_size = some n) :
    ∃ r, extractMediaData m = some r ∧
      (r.has_error = true ↔ TELEGRAM_MAX_FILE_SIZE < n) ∧
      (TELEGRAM_MAX_FILE_SIZE < n →
        r.file_id = none ∧ r.error_message = some documentTooLargeMessage) ∧
      (¬ TELEGRAM_MAX_FILE_SIZE < n →
        r.file_id = some d.file_id ∧ r.has_error = false ∧ r.error_message = none) := by
  by_cases hlim : TELEGRAM_MAX_FILE_SIZE < n
  · have hx : exceedsLimit (jsOrNullNat d.file_size) = true := by
      rw [hn, exceedsLimit_jsOrNull]; simpa using hlim
    have hE : extractMediaData m = some
        { media_type := some "document", file_id := none,
          file_size := jsOrNullNat d.file_size,
          file_name := jsOrNullStr d.file_name,
          mime_type := jsOrNullStr d.mime_type, width := none, height := none,
          duration := none, thumbnail_file_id := none,
          has_error := true, error_message := some documentTooLargeMessage } := by
      simp [extractMediaData, hp, hv, hd, hx]
    exact ⟨_, hE, by simpa using hlim, fun _ => ⟨rfl, rfl⟩,
      fun hc => absurd hlim hc⟩
  · have hx : exceedsLimit (jsOrNullNat d.file_size) = false := by
      rw [hn, exceedsLimit_jsOrNull]; simpa using hlim
    have hE : extractMediaData m = some
        { media_type := some "document", file_id := some d.file_id,
          file_size := jsOrNullNat d.file_size,
          file_name := jsOrNullStr d.file_name,
          mime_type := jsOrNullStr d.mime_type, width := none, height := none,
          duration := none, thumbnail_file_id := none,
          has_error := false, error_message := none } := by
      simp [extractMediaData, hp, hv, hd, hx]
    exact ⟨_, hE, by simpa using hlim, fun hc => absurd hc hlim,
      fun _ => ⟨rfl, rfl, rfl⟩⟩

theorem no_gate_others_aux (m : TelegramMessage)
    (hp : m.photo = none) (hv : m.video = none) (hd : m.document = none) :
    ∀ r, extractMediaData m = some r → r.has_error = false := by
  intro r h
  unfold extractMediaData at h
  rw [hp, hv, hd] at h
  repeat' split at h
  all_goals first
    | (injection h with h; subst h; rfl)
    | simp_all [emptyExtraction]

theorem image_no_gate_aux (m : TelegramMessage) (p : PhotoSize) (ps : List PhotoSize)
    (hp : m.photo = some (p :: ps)) :
    ∀ r, extractMediaData m = some r → r.has_error = false := by
  intro r h
  unfold extractMediaData at h
  rw [hp] at h
  injection h with h; subst h; rfl

theorem find?_cons_true {α : Type} (p : α → Bool) (a : α) (l : List α)
    (h : p a = true) : (a :: l).find? p = some a := by
  simp [List.find?, h]

theorem find?_cons_false {α : Type} (p : α → Bool) (a : α) (l : List α)
    (h : p a = false) : (a :: l).find? p = l.find? p := by
  simp [List.find?, h]

theorem le_maxSizeFrom : ∀ (l : List PhotoSize) (a : Nat), a ≤ maxSizeFrom a l
  | [], a => le_refl a
  | q :: l, a =>
    le_trans (Nat.le_max_left a (photoSizeVal q)) (le_maxSizeFrom l (max a (photoSizeVal q)))

theorem maxSizeFrom_cons (a : Nat) (q : PhotoSize) (l : List PhotoSize) :
    maxSizeFrom a (q :: l) = maxSizeFrom (max a (photoSizeVal q)) l := rfl

theorem largestPhoto_cons (p c : PhotoSize) (cs : List PhotoSize) :
    largestPhoto p (c :: cs) =
      largestPhoto (if photoSizeVal p < photoSizeVal c then c else p) cs := rfl

theorem largestPhoto_first_max :
    ∀ (ps : List PhotoSize) (p : PhotoSize),
      (p :: ps).find? (fun q => photoSizeVal q == maxSizeFrom (photoSizeVal p) ps) =
        some (largestPhoto p ps) := by
  intro ps
  induction ps with
  | nil =>
    intro p
    simp [largestPhoto, maxSizeFrom]
  | cons c cs ih =>
    intro p
    by_cases hpc : photoSizeVal p < photoSizeVal c
    · have hmax : max (photoSizeVal p) (photoSizeVal c) = photoSizeVal c :=
        Nat.max_eq_right (le_of_lt hpc)
      have hM : photoSizeVal p < maxSizeFrom (photoSizeVal c) cs :=
        lt_of_lt_of_le hpc (le_maxSizeFrom cs _)
      have hne : (photoSizeVal p == maxSizeFrom (photoSizeVal c) cs) = false :=
        beq_eq_false_iff_ne.mpr (Nat.ne_of_lt hM)
      rw [largestPhoto_cons, if_pos hpc, maxSizeFrom_cons, hmax,
        find?_cons_false (fun q => photoSizeVal q == maxSizeFrom (photoSizeVal c) cs)
          p (c :: cs) hne]
      exact ih c
    · have hcp : photoSizeVal c ≤ photoSizeVal p := Nat.le_of_not_lt hpc
      have hmax : max (photoSizeVal p) (photoSizeVal c) = photoSizeVal p :=
        Nat.max_eq_left hcp
      rw [largestPhoto_cons, if_neg hpc, maxSizeFrom_cons, hmax]
      have hih := ih p
      by_cases hp : photoSizeVal p = maxSizeFrom (photoSizeVal p) cs
      · have hpt : (photoSizeVal p == maxSizeFrom (photoSizeVal p) cs) = true :=
          beq_iff_eq.mpr hp
        rw [find?_cons_true (fun q => photoSizeVal q == maxSizeFrom (photoSizeVal p) cs)
          p (c :: cs) hpt]
        rw [find?_cons_true (fun q => photoSizeVal q == maxSizeFrom (photoSizeVal p) cs)
          p cs hpt] at hih
        exact hih
      · have hpf : (photoSizeVal p == maxSizeFrom (photoSizeVal p) cs) = false :=
          beq_eq_false_iff_ne.mpr hp
        have hcf : (photoSizeVal c == maxSizeFrom (photoSizeVal p) cs) = false := by
          refine beq_eq_false_iff_ne.mpr ?_
          intro hceq
          exact hp (le_antisymm (le_maxSizeFrom cs _) (hceq ▸ hcp))
        rw [find?_cons_false (fun q => photoSizeVal q == maxSizeFrom (photoSizeVal p) cs)
          p (c :: cs) hpf,
          find?_cons_false (fun q => photoSizeVal q == maxSizeFrom (photoSizeVal p) cs)
          c cs hcf]
        rw [find?_cons_false (fun q => photoSizeVal q == maxSizeFrom (photoSizeVal p) cs)
          p cs hpf] at hih
        exact hih

theorem listMaxSize_cons (p : PhotoSize) (ps : List PhotoSize) :
    listMaxSize (p :: ps) = maxSizeFrom (photoSizeVal p) ps := by
  simp [listMaxSize, maxSizeFrom_cons]

theorem mem_le_maxSizeFrom :
    ∀ (l : List PhotoSize) (a : Nat) (q : PhotoSize), q ∈ l →
      photoSizeVal q ≤ maxSizeFrom a l := by
  intro l
  induction l with
  | nil => intro a q hq; simp at hq
  | cons c cs ih =>
    intro a q hq
    rcases List.mem_cons.mp hq with h | h
    · subst h
      exact le_trans (Nat.le_max_right a (photoSizeVal q)) (le_maxSizeFrom cs _)
    · exact ih _ q h

theorem largestPhoto_size_eq (p : PhotoSize) (ps : List PhotoSize) :
    photoSizeVal (largestPhoto p ps) = maxSizeFrom (photoSizeVal p) ps := by
  have h := largestPhoto_first_max ps p
  have h2 := List.find?_some h
  simpa using h2

theorem mimeExtMap_eq_lookup (m : String) :
    mimeExtMap m = lookupTable specMimeTable m := by
  simp only [mimeExtMap, specMimeTable, lookupTable]

theorem categoryFallback_eq_spec (c : Option String) :
    categoryFallback c = specCategoryDefault c := by
  unfold categoryFallback specCategoryDefault
  split_ifs <;> simp_all

/-! ## Claim theorems: media metadata extraction -/

/-- C8: the extractor picks exactly one category in the fixed precedence
order image, video, document, audio, animation, voice; only the first
populated field is consulted even when several are populated; and a message
with no recognized media yields the all-null, non-errored record. -/
theorem claim_C8_category_precedence :
    (∀ m r, extractMediaData m = some r → r.media_type = firstMediaCategory m) ∧
    (∀ m, extractMediaData m = extractMediaData (keepFirstMediaOnly m)) ∧
    (∀ m, firstMediaCategory m = none → extractMediaData m = some emptyExtraction) :=
  ⟨extract_first_category_aux, extract_uses_first_only_aux, extract_no_media_aux⟩

/-- Witness for C8 at concrete inputs: a message populating both video and
document extracts as if only the video were present, and a no-media message
yields the empty record. -/
theorem claim_C8_category_precedence_witness :
    extractMediaData multiMsg = extractMediaData (keepFirstMediaOnly multiMsg) ∧
    extractMediaData noMediaMsg = some emptyExtraction ∧
    photosExtraction.media_type = firstMediaCategory photosMsg :=
  ⟨claim_C8_category_precedence.2.1 multiMsg,
   claim_C8_category_precedence.2.2 noMediaMsg rfl,
   claim_C8_category_precedence.1 photosMsg photosExtraction (by decide)⟩

/-- C4: a video or document with a declared size is flagged errored exactly
when the size strictly exceeds 20×1024×1024 bytes; when flagged, the file
reference (and for video the thumbnail reference) is cleared and a
descriptive message is set; image, audio, animation and voice are never
size-gated at extraction. -/
theorem claim_C4_size_gate :
    (∀ m v n, m.photo = none → m.video = some v → v.file_size = some n →
      ∃ r, extractMediaData m = some r ∧
        (r.has_error = true ↔ TELEGRAM_MAX_FILE_SIZE < n) ∧
        (TELEGRAM_MAX_FILE_SIZE < n →
          r.file_id = none ∧ r.thumbnail_file_id = none ∧
          r.error_message = some videoTooLargeMessage) ∧
        (¬ TELEGRAM_MAX_FILE_SIZE < n →
          r.file_id = some v.file_id ∧ r.has_error = false ∧ r.error_message = none)) ∧
    (∀ m d n, m.photo = none → m.video = none → m.document = some d →
        d.file_size = some n →
      ∃ r, extractMediaData m = some r ∧
        (r.has_error = true ↔ TELEGRAM_MAX_FILE_SIZE < n) ∧
        (TELEGRAM_MAX_FILE_SIZE < n →
          r.file_id = none ∧ r.error_message = some documentTooLargeMessage) ∧
        (¬ TELEGRAM_MAX_FILE_SIZE < n →
          r.file_id = some d.file_id ∧ r.has_error = false ∧ r.error_message = none)) ∧
    (∀ m p ps, m.photo = some (p :: ps) →
      ∀ r, extractMediaData m = some r → r.has_error = false) ∧
    (∀ m, m.photo = none → m.video = none → m.document = none →
      ∀ r, extractMediaData m = some r → r.has_error = false) :=
  ⟨video_gate_aux, document_gate_aux, image_no_gate_aux, no_gate_others_aux⟩

/-- Witness for C4 at one byte above the limit: the extraction is errored,
references cleared, message set. -/
theorem claim_C4_size_gate_witness :
    ∃ r, extractMediaData bigVideoMsg = some r ∧
      (r.has_error = true ↔ TELEGRAM_MAX_FILE_SIZE < 20 * 1024 * 1024 + 1) ∧
      (TELEGRAM_MAX_FILE_SIZE < 20 * 1024 * 1024 + 1 →
        r.file_id = none ∧ r.thumbnail_file_id = none ∧
        r.error_message = some videoTooLargeMessage) ∧
      (¬ TELEGRAM_MAX_FILE_SIZE < 20 * 1024 * 1024 + 1 →
        r.file_id = some bigVideo.file_id ∧ r.has_error = false ∧
        r.error_message = none) :=
  claim_C4_size_gate.1 bigVideoMsg bigVideo (20 * 1024 * 1024 + 1) rfl rfl rfl

/-- C5: extension inference precedence — a usable (non-empty,
length-capped) filename extension wins; else the fixed MIME lookup table;
else the category default (image→jpg, audio→mp3, voice→ogg, video→mp4,
animation→mp4, document→bin) — for every combination of inputs. -/
theorem claim_C5_extension_precedence :
    ∀ mimeType fileName mediaType,
      guessExtension mimeType fileName mediaType =
        specExtension mimeType fileName mediaType := by
  intro mt fn cat
  have hmime : guessExtensionFromMime mt cat =
      (match (jsOrNullStr mt).bind (lookupTable specMimeTable) with
        | some e => e
        | none => specCategoryDefault cat) := by
    unfold guessExtensionFromMime
    rcases jsOrNullStr mt with _ | mtv
    · simp [categoryFallback_eq_spec]
    · simp only [Option.some_bind]
      rw [← mimeExtMap_eq_lookup]
      cases mimeExtMap mtv <;> simp [categoryFallback_eq_spec]
  unfold guessExtension specExtension specFileNameExtension
  rcases hfn : jsOrNullStr fn with _ | name <;> simp only [hfn]
  · exact hmime
  · split_ifs with hcond
    · rfl
    · exact hmime

/-- C9: for a non-empty photo array the extractor takes the variant chosen
by the fold; that variant is the first one attaining the maximal reported
size (ties and absent sizes resolve to the earliest-listed variant). -/
theorem claim_C9_largest_photo :
    ∀ m p ps r, m.photo = some (p :: ps) → extractMediaData m = some r →
      r.file_id = some (largestPhoto p ps).file_id ∧
      r.width = some (largestPhoto p ps).width ∧
      r.height = some (largestPhoto p ps).height ∧
      r.file_size = jsOrNullNat (largestPhoto p ps).file_size ∧
      (p :: ps).find? (fun q => photoSizeVal q == listMaxSize (p :: ps)) =
        some (largestPhoto p ps) ∧
      (∀ q ∈ p :: ps, photoSizeVal q ≤ photoSizeVal (largestPhoto p ps)) := by
  intro m p ps r hp h
  unfold extractMediaData at h
  rw [hp] at h
  injection h with h
  subst h
  refine ⟨rfl, rfl, rfl, rfl, ?_, ?_⟩
  · rw [listMaxSize_cons]
    exact largestPhoto_first_max ps p
  · intro q hq
    rw [largestPhoto_size_eq]
    rcases List.mem_cons.mp hq with h | h
    · subst h
      exact le_maxSizeFrom ps _
    · exact mem_le_maxSizeFrom ps _ q h

/-- Witness for C9 on a three-variant array with a tie for the maximum: the
earliest of the two 9-byte variants ("p2") is selected. -/
theorem claim_C9_largest_photo_witness :
    photosExtraction.file_id = some (largestPhoto photoSmall [photoBig, photoBig2]).file_id ∧
    photosExtraction.width = some (largestPhoto photoSmall [photoBig, photoBig2]).width ∧
    photosExtraction.height = some (largestPhoto photoSmall [photoBig, photoBig2]).height ∧
    photosExtraction.file_size = jsOrNullNat (largestPhoto photoSmall [photoBig, photoBig2]).file_size ∧
    (photoSmall :: [photoBig, photoBig2]).find?
        (fun q => photoSizeVal q == listMaxSize (photoSmall :: [photoBig, photoBig2])) =
      some (largestPhoto photoSmall [photoBig, photoBig2]) ∧
    (∀ q ∈ photoSmall :: [photoBig, photoBig2],
      photoSizeVal q ≤ photoSizeVal (largestPhoto photoSmall [photoBig, photoBig2])) :=
  claim_C9_largest_photo photosMsg photoSmall [photoBig, photoBig2]
    photosExtraction rfl (by decide)

/-! ## Helper lemmas: media-group flush -/

theorem filter_not_filter {α : Type} (k : α → Bool) (l : List α) :
    (l.filter (fun b => !(k b))).filter k = [] := by
  induction l with
  | nil => rfl
  | cons b bs ih => by_cases h : k b <;> simp [List.filter_cons, h, ih]

theorem sortByMessageId_perm (l : List BufferRow) : (sortByMessageId l).Perm l :=
  List.perm_insertionSort _ l

theorem sortByMessageId_length (l : List BufferRow) :
    (sortByMessageId l).length = l.length :=
  (sortByMessageId_perm l).length_eq

theorem sortByMessageId_eq_nil {l : List BufferRow}
    (h : sortByMessageId l = []) : l = [] := by
  have := sortByMessageId_length l
  rw [h] at this
  exact List.length_eq_zero.mp this.symm

theorem sortByMessageId_nil : sortByMessageId [] = [] := rfl

theorem flush_noop_of_empty (net : Net) (g c : String) (s : DbState)
    (h : s.buffer.filter (bufferKey g c) = []) :
    processMediaGroupBuffer net g c s = s := by
  unfold processMediaGroupBuffer
  rw [h, sortByMessageId_nil]

theorem flush_clears_key (net : Net) (g c : String) (s : DbState) :
    ((processMediaGroupBuffer net g c s).buffer).filter (bufferKey g c) = [] := by
  unfold processMediaGroupBuffer
  cases h : sortByMessageId (s.buffer.filter (bufferKey g c)) with
  | nil =>
    have hb : s.buffer.filter (bufferKey g c) = [] := sortByMessageId_eq_nil h
    simp [hb]
  | cons e es =>
    simp [filter_not_filter (bufferKey g c) s.buffer]

theorem flush_idem (net : Net) (g c : String) (s : DbState) :
    processMediaGroupBuffer net g c (processMediaGroupBuffer net g c s) =
      processMediaGroupBuffer net g c s :=
  flush_noop_of_empty net g c _ (flush_clears_key net g c s)

theorem flush_nonempty_counts (net : Net) (g c : String) (s : DbState)
    (h : s.buffer.filter (bufferKey g c) ≠ []) :
    (processMediaGroupBuffer net g c s).posts.length = s.posts.length + 1 ∧
    (processMediaGroupBuffer net g c s).postMedia.length =
      s.postMedia.length + (s.buffer.filter (bufferKey g c)).length := by
  unfold processMediaGroupBuffer
  cases hs : sortByMessageId (s.buffer.filter (bufferKey g c)) with
  | nil => exact absurd (sortByMessageId_eq_nil hs) h
  | cons e es =>
    constructor
    · simp
    · have hlen : (e :: es).length = (s.buffer.filter (bufferKey g c)).length := by
        rw [← hs, sortByMessageId_length]
      simp [← hlen]

theorem groupCaption_eq_filterMap :
    ∀ l : List BufferRow,
      groupCaption l = ((l.filterMap (fun e => jsOrNullStr e.caption)).headD "") := by
  intro l
  induction l with
  | nil => rfl
  | cons e es ih =>
    unfold groupCaption
    cases hc : jsOrNullStr e.caption with
    | none =>
      rw [find?_cons_false (fun e => (jsOrNullStr e.caption).isSome) e es (by simp [hc])]
      simp only [List.filterMap_cons, hc]
      exact ih
    | some str =>
      rw [find?_cons_true (fun e => (jsOrNullStr e.caption).isSome) e es (by simp [hc])]
      have h2 : jsOrNullStr (some str) = some str := by
        cases ho : e.caption with
        | none => rw [ho] at hc; simp [jsOrNullStr] at hc
        | some u =>
          rw [ho] at hc
          unfold jsOrNullStr at hc ⊢
          by_cases hu : u = ""
          · simp [hu] at hc
          · simp [hu] at hc; subst hc; simp [hu]
      have hcap : e.caption = some str := by
        cases ho : e.caption with
        | none => rw [ho] at hc; simp [jsOrNullStr] at hc
        | some u =>
          rw [ho] at hc
          unfold jsOrNullStr at hc
          by_cases hu : u = ""
          · simp [hu] at hc
          · simp [hu] at hc; rw [hc]
      simp [List.filterMap_cons, hcap, h2]

theorem children_order_index (net : Net) (pid : Nat) (l : List BufferRow) :
    (l.enum.map (fun p => mediaRowFor net pid p.2.media_data p.1)).map
        (fun r => r.order_index) = List.range l.length := by
  rw [List.map_map]
  have hcomp : ((fun r : PostMediaRow => r.order_index) ∘
      (fun p : Nat × BufferRow => mediaRowFor net pid p.2.media_data p.1))
      = fun p : Nat × BufferRow => p.1 := by
    funext p; rfl
  rw [hcomp]
  exact List.enum_map_fst l

theorem sorted_head_min (l : List BufferRow) (e0 : BufferRow) (rest : List BufferRow)
    (h : sortByMessageId l = e0 :: rest) :
    ∀ e ∈ e0 :: rest, e0.telegram_message_id ≤ e.telegram_message_id := by
  have hs : List.Sorted (fun a b : BufferRow => a.telegram_message_id ≤ b.telegram_message_id)
      (sortByMessageId l) := by
    haveI : IsTotal BufferRow (fun a b => a.telegram_message_id ≤ b.telegram_message_id) :=
      ⟨fun a b => Nat.le_total _ _⟩
    haveI : IsTrans BufferRow (fun a b => a.telegram_message_id ≤ b.telegram_message_id) :=
      ⟨fun a b c hab hbc => le_trans hab hbc⟩
    exact List.sorted_insertionSort _ l
  rw [h] at hs
  intro e he
  rcases List.mem_cons.mp he with h1 | h1
  · subst h1; exact le_refl _
  · exact (List.sorted_cons.mp hs).1 e h1

theorem flush_shape (net : Net) (g c : String) (s : DbState)
    (e0 : BufferRow) (rest : List BufferRow)
    (hs : sortByMessageId (s.buffer.filter (bufferKey g c)) = e0 :: rest) :
    processMediaGroupBuffer net g c s = { s with
      posts := s.posts ++ [parentPostFor g c s.nextId (e0 :: rest)
        (groupCaption (e0 :: rest)) e0.message_date]
      postMedia := s.postMedia ++ (e0 :: rest).enum.map
        (fun p => mediaRowFor net s.nextId p.2.media_data p.1)
      buffer := s.buffer.filter (fun b => !(bufferKey g c b))
      nextId := s.nextId + 1 } := by
  unfold processMediaGroupBuffer
  rw [hs]

/-! ## Claim theorems: media-group flush -/

/-- C2: flush re-reads the buffered entries and is a no-op when none remain,
so it is idempotent — the second of two immediately successive invocations
creates no rows — and a non-empty flush creates exactly one parent post plus
one media row per buffered entry. -/
theorem claim_C2_flush_idempotent :
    ∀ (net : Net) (g c : String) (s : DbState),
      processMediaGroupBuffer net g c (processMediaGroupBuffer net g c s) =
        processMediaGroupBuffer net g c s ∧
      (s.buffer.filter (bufferKey g c) = [] →
        processMediaGroupBuffer net g c s = s) ∧
      (s.buffer.filter (bufferKey g c) ≠ [] →
        (processMediaGroupBuffer net g c s).posts.length = s.posts.length + 1 ∧
        (processMediaGroupBuffer net g c s).postMedia.length =
          s.postMedia.length + (s.buffer.filter (bufferKey g c)).length) :=
  fun net g c s =>
    ⟨flush_idem net g c s, flush_noop_of_empty net g c s,
     flush_nonempty_counts net g c s⟩

/-- Witness for C2 on a one-entry buffer: double flush equals single flush
and the single flush adds exactly one post. -/
theorem claim_C2_flush_idempotent_witness :
    processMediaGroupBuffer noNet "g2" "D" (processMediaGroupBuffer noNet "g2" "D" w2State) =
      processMediaGroupBuffer noNet "g2" "D" w2State ∧
    (processMediaGroupBuffer noNet "g2" "D" w2State).posts.length =
      w2State.posts.length + 1 :=
  ⟨(claim_C2_flush_idempotent noNet "g2" "D" w2State).1,
   ((claim_C2_flush_idempotent noNet "g2" "D" w2State).2.2 (by decide)).1⟩

/-- C3 counterexample: with members (message id 1, timestamp 100) and
(message id 2, timestamp 50), the flushed parent's publish time is 100 —
the timestamp of the smallest-message-id member — while the earliest member
timestamp is 50, refuting "publish time is the earliest member's
timestamp". -/
theorem claim_C3_counterexample :
    (processMediaGroupBuffer noNet "mg1" "C" c3State).posts.map
        (fun p => p.published_at) = [100] ∧
    (c3State.buffer.map (fun e => e.message_date)).min? = some 50 ∧
    (100 : Nat) ≠ 50 := by
  refine ⟨by decide, by decide, by decide⟩

/-- C3 (amended): a non-empty flush orders entries by message id, creates
one parent whose caption is the first non-empty caption, whose publish time
is the timestamp of the member with the smallest message id (the first in
the ordered list — not necessarily the earliest timestamp), and whose
member count is the number of buffered entries; creates one media row per
entry with order indices 0..n-1; and deletes the buffered entries. -/
theorem claim_C3_flush_contents :
    ∀ (net : Net) (g c : String) (s : DbState) (e0 : BufferRow) (rest : List BufferRow),
      sortByMessageId (s.buffer.filter (bufferKey g c)) = e0 :: rest →
      processMediaGroupBuffer net g c s = { s with
        posts := s.posts ++ [parentPostFor g c s.nextId (e0 :: rest)
          (groupCaption (e0 :: rest)) e0.message_date]
        postMedia := s.postMedia ++ (e0 :: rest).enum.map
          (fun p => mediaRowFor net s.nextId p.2.media_data p.1)
        buffer := s.buffer.filter (fun b => !(bufferKey g c b))
        nextId := s.nextId + 1 } ∧
      (e0 :: rest).length = (s.buffer.filter (bufferKey g c)).length ∧
      groupCaption (e0 :: rest) =
        ((e0 :: rest).filterMap (fun e => jsOrNullStr e.caption)).headD "" ∧
      ((e0 :: rest).enum.map (fun p => mediaRowFor net s.nextId p.2.media_data p.1)).map
          (fun r => r.order_index) = List.range (e0 :: rest).length ∧
      (∀ e ∈ e0 :: rest, e0.telegram_message_id ≤ e.telegram_message_id) := by
  intro net g c s e0 rest hs
  refine ⟨flush_shape net g c s e0 rest hs, ?_, groupCaption_eq_filterMap _,
    children_order_index net s.nextId _, sorted_head_min _ e0 rest hs⟩
  rw [← hs, sortByMessageId_length]

/-- Witness for C3 (amended) on the two-member buffer of the
counterexample: the parent takes member count 2, the caption "cap" and the
smaller-id member's timestamp 100. -/
theorem claim_C3_flush_contents_witness :
    processMediaGroupBuffer noNet "mg1" "C" c3State = { c3State with
      posts := c3State.posts ++ [parentPostFor "mg1" "C" c3State.nextId (c3E1 :: [c3E2])
        (groupCaption (c3E1 :: [c3E2])) c3E1.message_date]
      postMedia := c3State.postMedia ++ (c3E1 :: [c3E2]).enum.map
        (fun p => mediaRowFor noNet c3State.nextId p.2.media_data p.1)
      buffer := c3State.buffer.filter (fun b => !(bufferKey "mg1" "C" b))
      nextId := c3State.nextId + 1 } ∧
    (c3E1 :: [c3E2]).length = (c3State.buffer.filter (bufferKey "mg1" "C")).length ∧
    groupCaption (c3E1 :: [c3E2]) =
      ((c3E1 :: [c3E2]).filterMap (fun e => jsOrNullStr e.caption)).headD "" ∧
    ((c3E1 :: [c3E2]).enum.map
        (fun p => mediaRowFor noNet c3State.nextId p.2.media_data p.1)).map
        (fun r => r.order_index) = List.range (c3E1 :: [c3E2]).length ∧
    (∀ e ∈ c3E1 :: [c3E2], c3E1.telegram_message_id ≤ e.telegram_message_id) :=
  claim_C3_flush_contents noNet "mg1" "C" c3State c3E1 [c3E2] (by decide)

/-! ## Claim theorems: channel routing -/

/-- C6: when an active bot's configured channel id matches the post's chat
id and that bot has a bound collection, the update is handled by the
primary path alone — dedup check then ingestion into that single collection,
the fan-out never consulted; otherwise the update is handled by fanning out
over exactly the active LinkedChat rows for that chat id. -/
theorem claim_C6_channel_routing :
    ∀ (env : Env) (net : Net) (now : Nat) (botId : String) (u : TelegramUpdate)
      (m : TelegramMessage) (s : DbState) (tok : String),
      getBotToken env botId = some tok →
      u.channel_post = some m →
      (∀ b cid, findChannelBot env m.chat.id = some b → b.course_id = some cid →
        handleUpdate env net now botId u s =
          (if postExists s cid m.message_id then s
           else (saveCoursePost net cid m s).getD s)) ∧
      ((findChannelBot env m.chat.id).bind (fun b => b.course_id) = none →
        handleUpdate env net now botId u s =
          fanOutChannel net m (activeLinkedChats env m.chat.id) s) := by
  intro env net now botId u m s tok htok hcp
  have hmain : handleUpdate env net now botId u s = handleChannelPost env net m s := by
    unfold handleUpdate
    rw [htok, hcp]
  constructor
  · intro b cid hb hcid
    rw [hmain]
    unfold handleChannelPost
    simp only [hb, hcid]
    cases hdup : postExists s cid m.message_id
    · simp only [hdup, Bool.false_eq_true, if_false]
      cases saveCoursePost net cid m s <;> simp [Option.getD]
    · simp [hdup]
  · intro hnone
    rw [hmain]
    unfold handleChannelPost
    cases hb : findChannelBot env m.chat.id with
    | none => rfl
    | some b =>
      rw [hb] at hnone
      simp only [Option.some_bind] at hnone
      simp only [hnone]

/-- Witness for C6: with the primary bot of `c1Env` bound to "C", the
non-group channel post is handled by the primary dedup-then-save path. -/
theorem claim_C6_channel_routing_witness :
    handleUpdate c1Env noNet 0 "b1" ndUpdate emptyState =
      (if postExists emptyState "C" ndMsg.message_id then emptyState
       else (saveCoursePost noNet "C" ndMsg emptyState).getD emptyState) :=
  (claim_C6_channel_routing c1Env noNet 0 "b1" ndUpdate ndMsg emptyState "tok"
      rfl rfl).1
    { id := "b1", bot_token := "tok", channel_id := some "5",
      course_id := some "C", is_active := true } "C" (by decide) rfl

/-! ## Helper lemmas: channel duplicate suppression -/



theorem save_posts_mono (net : Net) (cid : String) (m : TelegramMessage)
    (s s2 : DbState) (h : saveCoursePost net cid m s = some s2) :
    ∃ l, s2.posts = s.posts ++ l := by
  unfold saveCoursePost at h
  cases hg : m.media_group_id with
  | some gid =>
    rw [hg] at h
    cases hex : extractMediaData m with
    | none => rw [hex] at h; exact absurd h (by simp)
    | some md =>
      rw [hex] at h
      injection h with h
      subst h
      exact ⟨[], by simp⟩
  | none =>
    rw [hg] at h
    cases hex : extractMediaData m with
    | none => rw [hex] at h; exact absurd h (by simp)
    | some md =>
      rw [hex] at h
      injection h with h
      subst h
      exact ⟨_, rfl⟩

theorem postExists_mono (s : DbState) (l : List PostRow) (cid : String) (mid : Nat)
    (h : postExists s cid mid = true) (s2 : DbState) (hp : s2.posts = s.posts ++ l) :
    postExists s2 cid mid = true := by
  unfold postExists at h ⊢
  rw [hp, List.any_append, h, Bool.true_or]

theorem save_none_of_extract_none (net : Net) (cid : String) (m : TelegramMessage)
    (s : DbState) (hex : extractMediaData m = none) :
    saveCoursePost net cid m s = none := by
  unfold saveCoursePost
  cases hg : m.media_group_id <;> simp [hex]

theorem save_nonGroup_postExists (net : Net) (cid : String) (m : TelegramMessage)
    (s s2 : DbState) (hg : m.media_group_id = none)
    (h : saveCoursePost net cid m s = some s2) :
    postExists s2 cid m.message_id = true := by
  unfold saveCoursePost at h
  rw [hg] at h
  cases hex : extractMediaData m with
  | none => rw [hex] at h; exact absurd h (by simp)
  | some md =>
    rw [hex] at h
    injection h with h
    subst h
    unfold postExists
    simp [savedPostRow, List.any_append]

theorem fanOut_of_extract_none (net : Net) (m : TelegramMessage)
    (hex : extractMediaData m = none) :
    ∀ (chats : List LinkedChatRow) (s : DbState), fanOutChannel net m chats s = s := by
  intro chats
  induction chats with
  | nil => intro s; rfl
  | cons c rest ih =>
    intro s
    unfold fanOutChannel
    cases hdup : postExists s c.course_id m.message_id
    · simp [hdup, save_none_of_extract_none net c.course_id m s hex]
    · simp [hdup, ih s]

theorem fanOut_posts_mono (net : Net) (m : TelegramMessage) :
    ∀ (chats : List LinkedChatRow) (s : DbState),
      ∃ l, (fanOutChannel net m chats s).posts = s.posts ++ l := by
  intro chats
  induction chats with
  | nil => intro s; exact ⟨[], by simp [fanOutChannel]⟩
  | cons c rest ih =>
    intro s
    unfold fanOutChannel
    cases hdup : postExists s c.course_id m.message_id
    · simp only [hdup, Bool.false_eq_true, if_false]
      cases hsave : saveCoursePost net c.course_id m s with
      | none => exact ⟨[], by simp⟩
      | some s2 =>
        obtain ⟨l1, h1⟩ := save_posts_mono net c.course_id m s s2 hsave
        obtain ⟨l2, h2⟩ := ih s2
        exact ⟨l1 ++ l2, by rw [h2, h1, List.append_assoc]⟩
    · simp only [hdup, if_true]
      exact ih s

theorem fanOut_establishes (net : Net) (m : TelegramMessage) (md : MediaExtraction)
    (hg : m.media_group_id = none) (hex : extractMediaData m = some md) :
    ∀ (chats : List LinkedChatRow) (s : DbState) (c : LinkedChatRow), c ∈ chats →
      postExists (fanOutChannel net m chats s) c.course_id m.message_id = true := by
  intro chats
  induction chats with
  | nil => intro s c hc; simp at hc
  | cons c0 rest ih =>
    intro s c hc
    unfold fanOutChannel
    cases hdup : postExists s c0.course_id m.message_id
    · cases hsave : saveCoursePost net c0.course_id m s with
      | none =>
        exfalso
        unfold saveCoursePost at hsave
        rw [hg, hex] at hsave
        simp at hsave
      | some s2 =>
        simp only [hdup, Bool.false_eq_true, if_false, hsave]
        have hpe : postExists s2 c0.course_id m.message_id = true :=
          save_nonGroup_postExists net c0.course_id m s s2 hg hsave
        rcases List.mem_cons.mp hc with h | h
        · subst h
          obtain ⟨l, hl⟩ := fanOut_posts_mono net m rest s2
          exact postExists_mono s2 l _ _ hpe _ hl
        · exact ih s2 c h
    · simp only [hdup, if_true]
      rcases List.mem_cons.mp hc with h | h
      · subst h
        obtain ⟨l, hl⟩ := fanOut_posts_mono net m rest s
        exact postExists_mono s l _ _ hdup _ hl
      · exact ih s c h

theorem fanOut_noop_of_all_exist (net : Net) (m : TelegramMessage) :
    ∀ (chats : List LinkedChatRow) (s : DbState),
      (∀ c ∈ chats, postExists s c.course_id m.message_id = true) →
      fanOutChannel net m chats s = s := by
  intro chats
  induction chats with
  | nil => intro s _; rfl
  | cons c0 rest ih =>
    intro s hall
    unfold fanOutChannel
    have h0 := hall c0 (List.mem_cons_self _ _)
    simp only [h0, if_true]
    exact ih s (fun c hc => hall c (List.mem_cons_of_mem _ hc))

theorem fanOut_idem (net : Net) (m : TelegramMessage) (hg : m.media_group_id = none)
    (chats : List LinkedChatRow) (s : DbState) :
    fanOutChannel net m chats (fanOutChannel net m chats s) =
      fanOutChannel net m chats s := by
  cases hex : extractMediaData m with
  | none => simp [fanOut_of_extract_none net m hex]
  | some md =>
    exact fanOut_noop_of_all_exist net m chats _
      (fun c hc => fanOut_establishes net m md hg hex chats s c hc)

theorem handleChannelPost_idem (env : Env) (net : Net) (m : TelegramMessage)
    (s : DbState) (hg : m.media_group_id = none) :
    handleChannelPost env net m (handleChannelPost env net m s) =
      handleChannelPost env net m s := by
  cases hb : findChannelBot env m.chat.id with
  | none =>
    have h1 : ∀ st, handleChannelPost env net m st =
        fanOutChannel net m (activeLinkedChats env m.chat.id) st := by
      intro st; unfold handleChannelPost; rw [hb]
    simp only [h1]
    exact fanOut_idem net m hg _ s
  | some b =>
    cases hcid : b.course_id with
    | none =>
      have h1 : ∀ st, handleChannelPost env net m st =
          fanOutChannel net m (activeLinkedChats env m.chat.id) st := by
        intro st; unfold handleChannelPost; rw [hb]; simp only [hcid]
      simp only [h1]
      exact fanOut_idem net m hg _ s
    | some cid =>
      have h1 : ∀ st, handleChannelPost env net m st =
          (if postExists st cid m.message_id then st
           else (saveCoursePost net cid m st).getD st) := by
        intro st
        unfold handleChannelPost
        rw [hb]
        simp only [hcid]
        cases hdup : postExists st cid m.message_id
        · simp only [hdup, Bool.false_eq_true, if_false]
          cases saveCoursePost net cid m st <;> simp [Option.getD]
        · simp [hdup]
      simp only [h1]
      cases hdup : postExists s cid m.message_id
      · cases hsave : saveCoursePost net cid m s with
        | none => simp [hdup, hsave]
        | some s2 =>
          have hpe := save_nonGroup_postExists net cid m s s2 hg hsave
          simp [hdup, hsave, hpe]
      · simp [hdup]

/-- C1 (amended): for channel updates without a media-group id, handling
the identical update a second time is a state-identical no-op — the
pre-insert existence check on (course_id, telegram_message_id) suppresses
the duplicate in both the primary-binding path and every linked-chat
fan-out step.  (For media-group members the same check runs before
buffering, but a flushed group parent stores no source message id, so
redelivery after the flush is not suppressed — see the counterexample.) -/
theorem claim_C1_dedup_nonGroup :
    ∀ (env : Env) (net : Net) (now : Nat) (botId : String) (u : TelegramUpdate)
      (m : TelegramMessage) (s : DbState),
      u.channel_post = some m → m.media_group_id = none →
      handleUpdate env net now botId u (handleUpdate env net now botId u s) =
        handleUpdate env net now botId u s := by
  intro env net now botId u m s hcp hg
  cases htok : getBotToken env botId with
  | none =>
    have h1 : ∀ st, handleUpdate env net now botId u st = st := by
      intro st; unfold handleUpdate; rw [htok]
    rw [h1, h1]
  | some tok =>
    have hx : ∀ st, handleUpdate env net now botId u st = handleChannelPost env net m st := by
      intro st
      unfold handleUpdate
      rw [htok, hcp]
    simp only [hx]
    exact handleChannelPost_idem env net m s hg

/-- Witness for C1 (amended): redelivering the non-group channel post is a
no-op on the state produced by its first delivery. -/
theorem claim_C1_dedup_nonGroup_witness :
    handleUpdate c1Env noNet 0 "b1" ndUpdate
        (handleUpdate c1Env noNet 0 "b1" ndUpdate emptyState) =
      handleUpdate c1Env noNet 0 "b1" ndUpdate emptyState :=
  claim_C1_dedup_nonGroup c1Env noNet 0 "b1" ndUpdate ndMsg emptyState rfl rfl

/-- C1 counterexample: the same media-group channel post (message id 42,
collection "C") delivered once, flushed, redelivered and flushed again
yields two Posts — the flushed parent records no `telegram_message_id`, so
the existence check cannot see it. -/
theorem claim_C1_counterexample :
    c1Run1.posts.length = 1 ∧ c1Run2.posts.length = 2 ∧
    c1Run1.posts.map (fun p => p.telegram_message_id) = [none] :=
  ⟨by decide, by decide, by decide⟩

/-! ## Helper lemmas: import sessions -/


theorem activeCountL_eq_countP (l : List SessionRow) (u : Int) :
    activeCountL l u = l.countP (fun r => r.telegram_user_id == u && r.is_active) := by
  simp [activeCountL, List.countP_eq_length_filter]

theorem save_sessions_eq (net : Net) (cid : String) (m : TelegramMessage)
    (s s2 : DbState) (h : saveCoursePost net cid m s = some s2) :
    s2.sessions = s.sessions := by
  unfold saveCoursePost at h
  cases hg : m.media_group_id with
  | some gid =>
    rw [hg] at h
    cases hex : extractMediaData m with
    | none => rw [hex] at h; exact absurd h (by simp)
    | some md => rw [hex] at h; injection h with h; subst h; rfl
  | none =>
    rw [hg] at h
    cases hex : extractMediaData m with
    | none => rw [hex] at h; exact absurd h (by simp)
    | some md => rw [hex] at h; injection h with h; subst h; rfl

theorem fanOut_sessions_eq (net : Net) (m : TelegramMessage) :
    ∀ (chats : List LinkedChatRow) (s : DbState),
      (fanOutChannel net m chats s).sessions = s.sessions := by
  intro chats
  induction chats with
  | nil => intro s; rfl
  | cons c rest ih =>
    intro s
    unfold fanOutChannel
    cases hdup : postExists s c.course_id m.message_id
    · simp only [hdup, Bool.false_eq_true, if_false]
      cases hsave : saveCoursePost net c.course_id m s with
      | none => rfl
      | some s2 => rw [ih s2, save_sessions_eq net c.course_id m s s2 hsave]
    · simp only [hdup, if_true]
      exact ih s

theorem handleChannelPost_sessions_eq (env : Env) (net : Net) (m : TelegramMessage)
    (s : DbState) : (handleChannelPost env net m s).sessions = s.sessions := by
  unfold handleChannelPost
  cases hb : findChannelBot env m.chat.id with
  | none =>
    simp only [hb]
    exact fanOut_sessions_eq net m (activeLinkedChats env m.chat.id) s
  | some b =>
    simp only [hb]
    cases hcid : b.course_id with
    | none =>
      simp only [hcid]
      exact fanOut_sessions_eq net m (activeLinkedChats env m.chat.id) s
    | some cid =>
      simp only [hcid]
      cases hdup : postExists s cid m.message_id
      · simp only [hdup, Bool.false_eq_true, if_false]
        cases hsave : saveCoursePost net cid m s with
        | none => simp only [hsave]
        | some s2 =>
          simp only [hsave]
          exact save_sessions_eq net cid m s s2 hsave
      · simp [hdup]

theorem activeCountL_deactivateAllFor_self (uid : Int) (now : Nat) (l : List SessionRow) :
    activeCountL (deactivateAllFor uid now l) uid = 0 := by
  unfold activeCountL deactivateAllFor
  rw [List.length_eq_zero, List.filter_eq_nil_iff]
  intro a ha
  obtain ⟨r, hr, hfr⟩ := List.mem_map.mp ha
  subst hfr
  by_cases hc : (r.telegram_user_id == uid && r.is_active) = true
  · simp only [hc, if_true]
    simp
  · simp only [hc, Bool.false_eq_true, if_false]
    simp [hc]

theorem activeCountL_deactivateAllFor_other (uid : Int) (now : Nat) (l : List SessionRow)
    (u : Int) (hu : u ≠ uid) :
    activeCountL (deactivateAllFor uid now l) u = activeCountL l u := by
  rw [activeCountL_eq_countP, activeCountL_eq_countP]
  unfold deactivateAllFor
  rw [List.countP_map]
  apply List.countP_congr
  intro r hr
  by_cases hc : (r.telegram_user_id == uid && r.is_active) = true
  · have h1 : r.telegram_user_id = uid := by
      have hcc := hc
      simp only [Bool.and_eq_true, beq_iff_eq] at hcc
      exact hcc.1
    have h2 : (r.telegram_user_id == u) = false := by
      rw [h1]
      exact beq_eq_false_iff_ne.mpr (fun he => hu he.symm)
    simp [Function.comp, hc, h2]
  · simp [Function.comp, hc]

theorem activeCountL_append (l1 l2 : List SessionRow) (u : Int) :
    activeCountL (l1 ++ l2) u = activeCountL l1 u + activeCountL l2 u := by
  simp [activeCountL, List.filter_append]

theorem activeCountL_setCountById (sid : Nat) (n : Nat) (l : List SessionRow) (u : Int) :
    activeCountL (setCountById sid n l) u = activeCountL l u := by
  rw [activeCountL_eq_countP, activeCountL_eq_countP]
  unfold setCountById
  rw [List.countP_map]
  apply List.countP_congr
  intro r hr
  by_cases hc : (r.id == sid) = true <;> simp [Function.comp, hc]

theorem activeCountL_deactivateById_le (sid : Nat) (now : Nat) (l : List SessionRow) (u : Int) :
    activeCountL (deactivateById sid now l) u ≤ activeCountL l u := by
  rw [activeCountL_eq_countP, activeCountL_eq_countP]
  unfold deactivateById
  rw [List.countP_map]
  apply List.countP_mono_left
  intro r hr hp
  by_cases hc : (r.id == sid) = true <;> simp_all [Function.comp]



theorem dispatch_inv (env : Env) (botId : String) (uid : Int) (now : Nat)
    (t : String) (s : DbState) (s2 : DbState)
    (h : dispatchCommand env botId uid now t s = some s2)
    (hInv : ∀ v, activeCountL s.sessions v ≤ 1) :
    ∀ v, activeCountL s2.sessions v ≤ 1 := by
  unfold dispatchCommand at h
  split_ifs at h
  · injection h with h; subst h; exact hInv
  · injection h with h; subst h; exact hInv
  · cases hbot : env.bots.find? (fun b => b.id == botId && b.is_active) with
    | none => simp only [hbot] at h; injection h with h; subst h; exact hInv
    | some bot =>
      simp only [hbot] at h
      cases hcid : bot.course_id with
      | none => simp only [hcid] at h; injection h with h; subst h; exact hInv
      | some cid =>
        simp only [hcid] at h
        cases huser : env.users.find? (fun w => w.telegram_id == uid) with
        | none => simp only [huser] at h; injection h with h; subst h; exact hInv
        | some dbUser =>
          simp only [huser] at h
          injection h with h
          subst h
          intro v
          by_cases hv : v = uid
          · subst hv
            rw [activeCountL_append, activeCountL_deactivateAllFor_self]
            have hone : activeCountL [newSessionRow v dbUser.id cid s.nextId] v = 1 := by
              unfold activeCountL newSessionRow
              simp
            rw [hone]
          · rw [activeCountL_append,
              activeCountL_deactivateAllFor_other uid now s.sessions v hv]
            have hne : (uid : Int) ≠ v := fun he => hv he.symm
            have hnew : activeCountL [newSessionRow uid dbUser.id cid s.nextId] v = 0 := by
              unfold activeCountL newSessionRow
              simp [beq_eq_false_iff_ne.mpr hne]
            rw [hnew]
            simpa using hInv v
  · cases hsess : findActiveSession s uid with
    | none => simp only [hsess] at h; injection h with h; subst h; exact hInv
    | some sess =>
      simp only [hsess] at h
      injection h with h
      subst h
      intro v
      exact le_trans (activeCountL_deactivateById_le sess.id now s.sessions v) (hInv v)



theorem handleForwarded_sessions_shape (net : Net) (uid : Int) (m : TelegramMessage)
    (s : DbState) :
    (handleForwarded net uid m s).sessions = s.sessions ∨
    ∃ sess, findActiveSession s uid = some sess ∧
      (handleForwarded net uid m s).sessions =
        setCountById sess.id (sess.message_count + 1) s.sessions := by
  unfold handleForwarded
  cases hsess : findActiveSession s uid with
  | none => exact Or.inl rfl
  | some sess =>
    cases hg : m.media_group_id with
    | some gid =>
      cases hex : extractMediaData m with
      | none => exact Or.inl rfl
      | some md => exact Or.inr ⟨sess, rfl, rfl⟩
    | none =>
      cases hex : extractMediaData m with
      | none => exact Or.inl rfl
      | some md => exact Or.inr ⟨sess, rfl, rfl⟩

theorem handleForwarded_inv (net : Net) (uid : Int) (m : TelegramMessage)
    (s : DbState) (hInv : ∀ v, activeCountL s.sessions v ≤ 1) :
    ∀ v, activeCountL (handleForwarded net uid m s).sessions v ≤ 1 := by
  intro v
  rcases handleForwarded_sessions_shape net uid m s with h | ⟨sess, _, h⟩
  · rw [h]; exact hInv v
  · rw [h, activeCountL_setCountById]; exact hInv v

theorem forwardedStep_inv (net : Net) (m : TelegramMessage) (s : DbState)
    (hInv : ∀ v, activeCountL s.sessions v ≤ 1) :
    ∀ v, activeCountL (forwardedStep net m s).sessions v ≤ 1 := by
  unfold forwardedStep
  split_ifs with hf
  · exact handleForwarded_inv net m.chat.id m s hInv
  · exact hInv

theorem handlePrivateMessage_inv (env : Env) (net : Net) (now : Nat) (botId : String)
    (m : TelegramMessage) (s : DbState)
    (hInv : ∀ v, activeCountL s.sessions v ≤ 1) :
    ∀ v, activeCountL (handlePrivateMessage env net now botId m s).sessions v ≤ 1 := by
  unfold handlePrivateMessage
  split_ifs with hp
  · cases ht : jsOrNullStr m.text with
    | none =>
      simp only [ht]
      exact forwardedStep_inv net m s hInv
    | some rawText =>
      simp only [ht]
      cases hd : dispatchCommand env botId m.chat.id now (normalizeCommand rawText) s with
      | none =>
        simp only [hd]
        exact forwardedStep_inv net m s hInv
      | some s2 =>
        simp only [hd]
        exact dispatch_inv env botId m.chat.id now (normalizeCommand rawText) s s2 hd hInv
  · exact hInv

theorem handleUpdate_inv (env : Env) (net : Net) (now : Nat) (botId : String)
    (u : TelegramUpdate) (s : DbState) (hInv : SessionsInvariant s) :
    SessionsInvariant (handleUpdate env net now botId u s) := by
  unfold SessionsInvariant activeCountFor at hInv ⊢
  unfold handleUpdate
  cases htok : getBotToken env botId with
  | none => exact hInv
  | some tok =>
    cases hcp : u.channel_post with
    | some m =>
      intro v
      rw [handleChannelPost_sessions_eq env net m s]
      exact hInv v
    | none =>
      cases hm : u.message with
      | none => exact hInv
      | some m => exact handlePrivateMessage_inv env net now botId m s hInv

theorem terminated_le_one (s s2 : DbState) (hInv : SessionsInvariant s) (uid : Int) :
    terminatedFor s s2 uid ≤ 1 := by
  unfold terminatedFor
  have h1 : (s.sessions.filter (fun r => r.telegram_user_id == uid && r.is_active &&
      !(sessionActiveById s2 r.id))).length ≤
      (s.sessions.filter (fun r => r.telegram_user_id == uid && r.is_active)).length := by
    rw [← List.countP_eq_length_filter, ← List.countP_eq_length_filter]
    apply List.countP_mono_left
    intro a ha hpa
    simp only [Bool.and_eq_true] at hpa ⊢
    exact hpa.1
  exact le_trans h1 (hInv uid)

theorem import_shape (env : Env) (botId : String) (uid : Int) (now : Nat)
    (s : DbState) (bot : BotRow) (cid : String) (dbUser : UserRow)
    (hbot : env.bots.find? (fun b => b.id == botId && b.is_active) = some bot)
    (hcid : bot.course_id = some cid)
    (huser : env.users.find? (fun w => w.telegram_id == uid) = some dbUser) :
    dispatchCommand env botId uid now "/import" s = some { s with
      sessions := deactivateAllFor uid now s.sessions ++
        [newSessionRow uid dbUser.id cid s.nextId]
      nextId := s.nextId + 1 } := by
  unfold dispatchCommand
  rw [if_neg (by decide), if_neg (by decide), if_pos (by decide)]
  simp only [hbot, hcid, huser]


theorem done_shape (env : Env) (botId : String) (uid : Int) (now : Nat)
    (s : DbState) (sess : SessionRow) (t : String)
    (ht : t = "/done" ∨ t = "/stop")
    (hsess : findActiveSession s uid = some sess) :
    dispatchCommand env botId uid now t s =
      some { s with sessions := deactivateById sess.id now s.sessions } := by
  rcases ht with ht | ht <;> subst ht <;>
    · unfold dispatchCommand
      rw [if_neg (by decide), if_neg (by decide), if_neg (by decide), if_pos (by decide)]
      simp only [hsess]

theorem deactivateById_inactive (sid : Nat) (now : Nat) (l : List SessionRow) :
    (deactivateById sid now l).any (fun r => r.id == sid && r.is_active) = false := by
  unfold deactivateById
  rw [List.any_eq_false]
  intro a ha
  obtain ⟨r, hr, hfr⟩ := List.mem_map.mp ha
  by_cases hc : (r.id == sid) = true
  · rw [if_pos hc] at hfr
    subst hfr
    simp
  · rw [if_neg hc] at hfr
    subst hfr
    simp [hc]

theorem deactivateById_marks (sid : Nat) (now : Nat) (l : List SessionRow) :
    ∀ r ∈ deactivateById sid now l, r.id = sid →
      r.is_active = false ∧ r.completed_at = some now := by
  intro a ha hid
  unfold deactivateById at ha
  obtain ⟨r, hr, hfr⟩ := List.mem_map.mp ha
  by_cases hc : (r.id == sid) = true
  · rw [if_pos hc] at hfr
    subst hfr
    exact ⟨rfl, rfl⟩
  · rw [if_neg hc] at hfr
    subst hfr
    exact absurd (beq_iff_eq.mpr hid) hc

/-- C7: at most one import session row is active per external user id, and
every webhook update preserves this invariant; a successful `/import` first
deactivates every Active session of the user (Completed with a timestamp)
and then inserts the fresh Active session, so a transition terminates at
most one prior Active session; and a stop command (`/done` or `/stop`) with
an active session deactivates exactly that session, marking it Completed
with a timestamp. -/
theorem claim_C7_session_invariant :
    ∀ (env : Env) (net : Net) (now : Nat) (botId : String) (u : TelegramUpdate)
      (s : DbState), SessionsInvariant s →
      SessionsInvariant (handleUpdate env net now botId u s) ∧
      (∀ uid, terminatedFor s (handleUpdate env net now botId u s) uid ≤ 1) ∧
      (∀ (uid : Int) (bot : BotRow) (cid : String) (dbUser : UserRow),
        env.bots.find? (fun b => b.id == botId && b.is_active) = some bot →
        bot.course_id = some cid →
        env.users.find? (fun w => w.telegram_id == uid) = some dbUser →
        dispatchCommand env botId uid now "/import" s = some { s with
          sessions := deactivateAllFor uid now s.sessions ++
            [newSessionRow uid dbUser.id cid s.nextId]
          nextId := s.nextId + 1 }) ∧
      (∀ (uid : Int) (sess : SessionRow) (t : String),
        t = "/done" ∨ t = "/stop" →
        findActiveSession s uid = some sess →
        dispatchCommand env botId uid now t s =
          some { s with sessions := deactivateById sess.id now s.sessions } ∧
        sessionActiveById
          { s with sessions := deactivateById sess.id now s.sessions } sess.id = false ∧
        (∀ r ∈ deactivateById sess.id now s.sessions, r.id = sess.id →
          r.is_active = false ∧ r.completed_at = some now)) :=
  fun env net now botId u s hInv =>
    ⟨handleUpdate_inv env net now botId u s hInv,
     fun uid => terminated_le_one s _ hInv uid,
     fun uid bot cid dbUser hb hc hu =>
       import_shape env botId uid now s bot cid dbUser hb hc hu,
     fun uid sess t ht hsess =>
       ⟨done_shape env botId uid now s sess t ht hsess,
        deactivateById_inactive sess.id now s.sessions,
        deactivateById_marks sess.id now s.sessions⟩⟩

/-- Witness for C7: user 77 runs `/import` against the configured bot of
`c7Env`; the invariant holds afterwards, the dispatch deactivates all prior
sessions before inserting the new Active one, and `/done` on the state with
the active session `sess77` deactivates exactly that session. -/
theorem claim_C7_session_invariant_witness :
    SessionsInvariant (handleUpdate c7Env noNet 5 "b1" importUpdate emptyState) ∧
    dispatchCommand c7Env "b1" 77 5 "/import" emptyState = some { emptyState with
      sessions := deactivateAllFor 77 5 emptyState.sessions ++
        [newSessionRow 77 "u77" "X" emptyState.nextId]
      nextId := emptyState.nextId + 1 } ∧
    dispatchCommand c7Env "b1" 77 5 "/done" c10State = some { c10State with
      sessions := deactivateById sess77.id 5 c10State.sessions } ∧
    sessionActiveById
      { c10State with sessions := deactivateById sess77.id 5 c10State.sessions }
      sess77.id = false :=
  ⟨(claim_C7_session_invariant c7Env noNet 5 "b1" importUpdate emptyState
      (fun u => by simp [activeCountFor, activeCountL, emptyState])).1,
   (claim_C7_session_invariant c7Env noNet 5 "b1" importUpdate emptyState
      (fun u => by simp [activeCountFor, activeCountL, emptyState])).2.2.1 77
     { id := "b1", bot_token := "tok", channel_id := none,
       course_id := some "X", is_active := true }
     "X" { id := "u77", telegram_id := 77 } rfl rfl rfl,
   ((claim_C7_session_invariant c7Env noNet 5 "b1" importUpdate c10State
      (fun u => by
        simpa [c10State, activeCountFor, activeCountL] using
          List.length_filter_le
            (fun r : SessionRow => r.telegram_user_id == u && r.is_active)
            [sess77])).2.2.2 77 sess77 "/done" (Or.inl rfl) rfl).1,
   ((claim_C7_session_invariant c7Env noNet 5 "b1" importUpdate c10State
      (fun u => by
        simpa [c10State, activeCountFor, activeCountL] using
          List.length_filter_le
            (fun r : SessionRow => r.telegram_user_id == u && r.is_active)
            [sess77])).2.2.2 77 sess77 "/done" (Or.inl rfl) rfl).2.1⟩

/-! ## Helper lemmas and claim: forwarded ingestion -/


theorem dispatch_none_indep (env : Env) (botId : String) (uid : Int) (now : Nat)
    (t : String) (s s3 : DbState)
    (h : dispatchCommand env botId uid now t s = none) :
    dispatchCommand env botId uid now t s3 = none := by
  unfold dispatchCommand at h ⊢
  split_ifs at h ⊢
  · exfalso
    cases hbot : env.bots.find? (fun b => b.id == botId && b.is_active) with
    | none => simp [hbot] at h
    | some bot =>
      cases hcid : bot.course_id with
      | none => simp [hbot, hcid] at h
      | some cid =>
        cases huser : env.users.find? (fun w => w.telegram_id == uid) with
        | none => simp [hbot, hcid, huser] at h
        | some dbUser => simp [hbot, hcid, huser] at h
  · exfalso
    cases hsess : findActiveSession s uid with
    | none => simp [hsess] at h
    | some sess => simp [hsess] at h
  · rfl

theorem findActive_setCount (l : List SessionRow) (uid : Int) (sess : SessionRow) (n : Nat)
    (h : l.find? (fun r => r.telegram_user_id == uid && r.is_active) = some sess) :
    (setCountById sess.id n l).find? (fun r => r.telegram_user_id == uid && r.is_active) =
      some { sess with message_count := n } := by
  induction l with
  | nil => simp at h
  | cons r rs ih =>
    unfold setCountById at ih ⊢
    cases hpred : (r.telegram_user_id == uid && r.is_active) with
    | true =>
      rw [find?_cons_true (fun q => q.telegram_user_id == uid && q.is_active) r rs hpred] at h
      injection h with h
      subst h
      simp only [List.map_cons, beq_self_eq_true, if_true]
      exact find?_cons_true (fun q : SessionRow => q.telegram_user_id == uid && q.is_active)
        _ _ hpred
    | false =>
      rw [find?_cons_false (fun q => q.telegram_user_id == uid && q.is_active) r rs hpred] at h
      simp only [List.map_cons]
      by_cases hid : (r.id == sess.id) = true
      · simp only [hid, if_true]
        exact (find?_cons_false (fun q : SessionRow => q.telegram_user_id == uid && q.is_active)
          { r with message_count := n } _ hpred).trans (ih h)
      · simp only [hid, Bool.false_eq_true, if_false]
        exact (find?_cons_false (fun q : SessionRow => q.telegram_user_id == uid && q.is_active)
          _ _ hpred).trans (ih h)

theorem handleForwarded_nonGroup_shape (net : Net) (uid : Int) (m : TelegramMessage)
    (s : DbState) (sess : SessionRow) (md : MediaExtraction)
    (hsess : findActiveSession s uid = some sess)
    (hg : m.media_group_id = none) (hex : extractMediaData m = some md) :
    handleForwarded net uid m s = { s with
      posts := s.posts ++ [forwardedPostRow net sess.course_id m md s.nextId]
      sessions := setCountById sess.id (sess.message_count + 1) s.sessions
      nextId := s.nextId + 1 } := by
  unfold handleForwarded
  simp only [hsess, hg, hex]

theorem handleForwarded_group_shape (net : Net) (uid : Int) (m : TelegramMessage)
    (s : DbState) (sess : SessionRow) (md : MediaExtraction) (gid : String)
    (hsess : findActiveSession s uid = some sess)
    (hg : m.media_group_id = some gid) (hex : extractMediaData m = some md) :
    handleForwarded net uid m s = { s with
      buffer := s.buffer ++ [forwardedBufferRow sess.course_id gid m md]
      sessions := setCountById sess.id (sess.message_count + 1) s.sessions } := by
  unfold handleForwarded
  simp only [hsess, hg, hex]

theorem handleUpdate_forwarded_plumb (env : Env) (net : Net) (now : Nat)
    (botId : String) (u : TelegramUpdate) (m : TelegramMessage) (s : DbState)
    (tok : String)
    (htok : getBotToken env botId = some tok)
    (hcp : u.channel_post = none) (hm : u.message = some m)
    (hpriv : m.chat.type = "private")
    (hcmd : ∀ rawText, jsOrNullStr m.text = some rawText →
      dispatchCommand env botId m.chat.id now (normalizeCommand rawText) s = none)
    (hfwd : ((jsOrNullNat m.forward_date).isSome || m.forward_origin.isSome) = true) :
    handleUpdate env net now botId u s = handleForwarded net m.chat.id m s := by
  have hpriv2 : (m.chat.type == "private") = true := by simp [hpriv]
  unfold handleUpdate handlePrivateMessage
  simp only [htok, hcp, hm]
  rw [if_pos hpriv2]
  cases ht : jsOrNullStr m.text with
  | none =>
    simp only [ht]
    unfold forwardedStep
    rw [if_pos hfwd]
  | some rawText =>
    simp only [ht, hcmd rawText ht]
    unfold forwardedStep
    rw [if_pos hfwd]



/-- C10: a private-chat forwarded message that reaches the forwarded branch
while its user has an Active session is ingested with no existence check —
a `course_posts` row (or a media-group buffer row) is appended
unconditionally and the counter is set to the read value plus one — so
delivering the same forwarded message twice appends two Posts and adds two
to the counter, even when a Post with the same (collection id, source
message id) already exists. -/
theorem claim_C10_forwarded_no_dedup :
    (∀ (env : Env) (net : Net) (now : Nat) (botId : String) (u : TelegramUpdate)
       (m : TelegramMessage) (s : DbState) (tok : String) (sess : SessionRow)
       (md : MediaExtraction),
      getBotToken env botId = some tok →
      u.channel_post = none → u.message = some m →
      m.chat.type = "private" →
      (∀ rawText, jsOrNullStr m.text = some rawText →
        dispatchCommand env botId m.chat.id now (normalizeCommand rawText) s = none) →
      ((jsOrNullNat m.forward_date).isSome || m.forward_origin.isSome) = true →
      findActiveSession s m.chat.id = some sess →
      m.media_group_id = none →
      extractMediaData m = some md →
      handleUpdate env net now botId u s = { s with
        posts := s.posts ++ [forwardedPostRow net sess.course_id m md s.nextId]
        sessions := setCountById sess.id (sess.message_count + 1) s.sessions
        nextId := s.nextId + 1 } ∧
      findActiveSession (handleUpdate env net now botId u s) m.chat.id =
        some { sess with message_count := sess.message_count + 1 } ∧
      (handleUpdate env net now botId u
          (handleUpdate env net now botId u s)).posts.length = s.posts.length + 2) ∧
    (∀ (env : Env) (net : Net) (now : Nat) (botId : String) (u : TelegramUpdate)
       (m : TelegramMessage) (s : DbState) (tok : String) (sess : SessionRow)
       (md : MediaExtraction) (gid : String),
      getBotToken env botId = some tok →
      u.channel_post = none → u.message = some m →
      m.chat.type = "private" →
      (∀ rawText, jsOrNullStr m.text = some rawText →
        dispatchCommand env botId m.chat.id now (normalizeCommand rawText) s = none) →
      ((jsOrNullNat m.forward_date).isSome || m.forward_origin.isSome) = true →
      findActiveSession s m.chat.id = some sess →
      m.media_group_id = some gid →
      extractMediaData m = some md →
      handleUpdate env net now botId u s = { s with
        buffer := s.buffer ++ [forwardedBufferRow sess.course_id gid m md]
        sessions := setCountById sess.id (sess.message_count + 1) s.sessions }) := by
  constructor
  · intro env net now botId u m s tok sess md htok hcp hm hpriv hcmd hfwd hsess hg hex
    have hplumb := handleUpdate_forwarded_plumb env net now botId u m s tok
      htok hcp hm hpriv hcmd hfwd
    have hshape := handleForwarded_nonGroup_shape net m.chat.id m s sess md hsess hg hex
    have h1 : handleUpdate env net now botId u s = { s with
        posts := s.posts ++ [forwardedPostRow net sess.course_id m md s.nextId]
        sessions := setCountById sess.id (sess.message_count + 1) s.sessions
        nextId := s.nextId + 1 } := hplumb.trans hshape
    unfold findActiveSession at hsess
    have h2 : findActiveSession (handleUpdate env net now botId u s) m.chat.id =
        some { sess with message_count := sess.message_count + 1 } := by
      rw [h1]
      unfold findActiveSession
      exact findActive_setCount s.sessions m.chat.id sess (sess.message_count + 1) hsess
    refine ⟨h1, h2, ?_⟩
    have hcmd1 : ∀ rawText, jsOrNullStr m.text = some rawText →
        dispatchCommand env botId m.chat.id now (normalizeCommand rawText)
          (handleUpdate env net now botId u s) = none :=
      fun rt hrt => dispatch_none_indep env botId m.chat.id now (normalizeCommand rt)
        s _ (hcmd rt hrt)
    have hplumb1 := handleUpdate_forwarded_plumb env net now botId u m
      (handleUpdate env net now botId u s) tok htok hcp hm hpriv hcmd1 hfwd
    have hshape1 := handleForwarded_nonGroup_shape net m.chat.id m
      (handleUpdate env net now botId u s)
      { sess with message_count := sess.message_count + 1 } md h2 hg hex
    rw [hplumb1.trans hshape1]
    simp only [List.length_append]
    rw [h1]
    simp
  · intro env net now botId u m s tok sess md gid htok hcp hm hpriv hcmd hfwd hsess hg hex
    have hplumb := handleUpdate_forwarded_plumb env net now botId u m s tok
      htok hcp hm hpriv hcmd hfwd
    exact hplumb.trans
      (handleForwarded_group_shape net m.chat.id m s sess md gid hsess hg hex)


/-- Witness for C10: `c10State` already holds a Post under ("X", 42), yet
delivering the forwarded message with id 42 twice appends two more rows and
bumps the counter each time. -/
theorem claim_C10_forwarded_no_dedup_witness :
    handleUpdate c7Env noNet 9 "b1" fwdUpdate c10State = { c10State with
      posts := c10State.posts ++
        [forwardedPostRow noNet sess77.course_id fwdMsg fwdExtraction c10State.nextId]
      sessions := setCountById sess77.id (sess77.message_count + 1) c10State.sessions
      nextId := c10State.nextId + 1 } ∧
    findActiveSession (handleUpdate c7Env noNet 9 "b1" fwdUpdate c10State)
        fwdMsg.chat.id =
      some { sess77 with message_count := sess77.message_count + 1 } ∧
    (handleUpdate c7Env noNet 9 "b1" fwdUpdate
        (handleUpdate c7Env noNet 9 "b1" fwdUpdate c10State)).posts.length =
      c10State.posts.length + 2 :=
  claim_C10_forwarded_no_dedup.1 c7Env noNet 9 "b1" fwdUpdate fwdMsg c10State "tok"
    sess77 fwdExtraction rfl rfl rfl rfl
    (fun rawText h => by simp [jsOrNullStr, fwdMsg] at h) (by decide) (by decide) rfl (by decide)

end KKBK
